import Mathlib

/-!
Portfolio Analyser: valuation aggregation and asset-store handlers.

A shallow embedding of the front end of the Portfolio Analyser
(`frontend/src/App.js` and, under `frontend/src/components/`,
`PortfolioCharts.js`, `AddAssetForm.js`, `AssetList.js` and `LivePriceInfo.js`).

* JavaScript numbers are taken as exact rationals (`ℚ`); a number that may be
  `NaN` is an `Option ℚ` with `none` for `NaN`, and a division whose divisor is
  zero has no rational value and is `none` too.
* Where a statement turns on the rounding of IEEE 754 doubles, the same code is
  also given in double arithmetic (`roundDouble`, `allocationShareDouble`,
  `calculateProfitLossDouble`): every operation rounds its exact result to the
  nearest double, ties to even.
* React state is an explicit record `AppState`; every handler is a function
  from the state (and the responses of the remote service it awaits) to the
  new state and the list of network requests it issued.
-/

namespace PortfolioAnalyser

/-! ## Data model -/

/-- An asset as returned by the remote asset store. -/
structure Asset where
  id : String
  symbol : String
  asset_type : String
  purchase_price : ℚ
  quantity : ℚ
  purchase_date : String
  deriving DecidableEq

/-- The live-price object, by its own entries: the entry of a symbol is the
first pair carrying it. -/
abbrev PriceMap := List (String × ℚ)

/-- The names of the members that every plain object inherits from
`Object.prototype`. -/
def objectPrototypeKeys : List String :=
  ["constructor", "__defineGetter__", "__defineSetter__", "hasOwnProperty",
   "__lookupGetter__", "__lookupSetter__", "isPrototypeOf", "propertyIsEnumerable",
   "toString", "valueOf", "__proto__", "toLocaleString"]

/-- What reading `livePrices[key]` gives. -/
inductive Member where
  /-- The object has no member of that name: `undefined`. -/
  | undefined
  /-- The own entry of that name, a number. -/
  | price (q : ℚ)
  /-- A member inherited from `Object.prototype` (a function, or for
  `__proto__` the prototype object): truthy, and `NaN` when taken as a number. -/
  | inherited
  deriving DecidableEq

/-- The value of `livePrices[key]`: the own entry when there is one, else the
inherited member when `key` names one, else `undefined`. -/
def getMember (livePrices : PriceMap) (key : String) : Member :=
  match livePrices.lookup key with
  | some q => Member.price q
  | none => if key ∈ objectPrototypeKeys then Member.inherited else Member.undefined

/-- JavaScript addition of two numbers that may be `NaN`. -/
def jsAdd (a b : Option ℚ) : Option ℚ :=
  match a, b with
  | some x, some y => some (x + y)
  | _, _ => none

def ASSET_TYPE_INDIAN_STOCK : String := "Indian Stock"
def ASSET_TYPE_US_STOCK : String := "US Stock"
def ASSET_TYPE_CRYPTO : String := "Crypto"

/-- The state held by `App` (its `useState` cells). -/
structure AppState where
  addAssetModalOpen : Bool
  assets : List Asset
  loading : Bool
  error : Option String
  livePrices : PriceMap
  loadingPrices : Bool
  priceError : Option String
  lastPriceUpdate : Option Nat
  indianStocksTotal : ℚ
  usStocksTotal : ℚ
  cryptoTotal : ℚ
  grandTotal : ℚ
  indianStocksCurrentTotal : Option ℚ
  usStocksCurrentTotal : Option ℚ
  cryptoCurrentTotal : Option ℚ
  grandCurrentTotal : Option ℚ
  deriving DecidableEq

/-- The initial values of the `useState` cells of `App`. -/
def AppState.initial : AppState where
  addAssetModalOpen := false
  assets := []
  loading := true
  error := none
  livePrices := []
  loadingPrices := false
  priceError := none
  lastPriceUpdate := none
  indianStocksTotal := 0
  usStocksTotal := 0
  cryptoTotal := 0
  grandTotal := 0
  indianStocksCurrentTotal := some 0
  usStocksCurrentTotal := some 0
  cryptoCurrentTotal := some 0
  grandCurrentTotal := some 0

/-- The eight valuation totals, in the order purchase (three classes, grand)
then current (three classes, grand); a current total may be `NaN`. -/
structure Totals where
  indianStocksTotal : ℚ
  usStocksTotal : ℚ
  cryptoTotal : ℚ
  grandTotal : ℚ
  indianStocksCurrentTotal : Option ℚ
  usStocksCurrentTotal : Option ℚ
  cryptoCurrentTotal : Option ℚ
  grandCurrentTotal : Option ℚ
  deriving DecidableEq

/-- The eight totals held in a state. -/
def AppState.totals (s : AppState) : Totals where
  indianStocksTotal := s.indianStocksTotal
  usStocksTotal := s.usStocksTotal
  cryptoTotal := s.cryptoTotal
  grandTotal := s.grandTotal
  indianStocksCurrentTotal := s.indianStocksCurrentTotal
  usStocksCurrentTotal := s.usStocksCurrentTotal
  cryptoCurrentTotal := s.cryptoCurrentTotal
  grandCurrentTotal := s.grandCurrentTotal

/-! ## The totals effect of `App` (App.js, lines 179-219) -/

/-- The six local accumulators of the totals effect. -/
structure Accumulators where
  indTotal : ℚ
  usTotal : ℚ
  cryTotal : ℚ
  indCurrentTotal : Option ℚ
  usCurrentTotal : Option ℚ
  cryCurrentTotal : Option ℚ
  deriving DecidableEq

/-- The accumulators before the loop: all `0`. -/
def Accumulators.zero : Accumulators := ⟨0, 0, 0, some 0, some 0, some 0⟩

/-- The value of `asset.purchase_price * asset.quantity`. -/
def purchaseValue (asset : Asset) : ℚ :=
  asset.purchase_price * asset.quantity

/-- The value of `livePrice ? livePrice * asset.quantity : purchaseValue` with
`livePrice = livePrices[asset.symbol]`: `undefined` and a zero entry are falsy;
an inherited member is truthy and its product with the quantity is `NaN`. -/
def currentValue (livePrices : PriceMap) (asset : Asset) : Option ℚ :=
  match getMember livePrices asset.symbol with
  | Member.price livePrice =>
    if livePrice ≠ 0 then some (livePrice * asset.quantity) else some (purchaseValue asset)
  | Member.inherited => none
  | Member.undefined => some (purchaseValue asset)

/-- One iteration of the body of `assets.forEach`. -/
def accumulate (livePrices : PriceMap) (acc : Accumulators) (asset : Asset) :
    Accumulators :=
  if asset.asset_type = ASSET_TYPE_INDIAN_STOCK then
    { acc with
      indTotal := acc.indTotal + purchaseValue asset
      indCurrentTotal := jsAdd acc.indCurrentTotal (currentValue livePrices asset) }
  else if asset.asset_type = ASSET_TYPE_US_STOCK then
    { acc with
      usTotal := acc.usTotal + purchaseValue asset
      usCurrentTotal := jsAdd acc.usCurrentTotal (currentValue livePrices asset) }
  else if asset.asset_type = ASSET_TYPE_CRYPTO then
    { acc with
      cryTotal := acc.cryTotal + purchaseValue asset
      cryCurrentTotal := jsAdd acc.cryCurrentTotal (currentValue livePrices asset) }
  else acc

/-- The accumulators after `assets.forEach`. -/
def runLoop (livePrices : PriceMap) (assets : List Asset) : Accumulators :=
  assets.foldl (accumulate livePrices) Accumulators.zero

/-- The totals effect: run the loop over `assets`, then store the eight totals. -/
def recomputeTotals (s : AppState) : AppState :=
  let acc := runLoop s.livePrices s.assets
  { s with
    indianStocksTotal := acc.indTotal
    usStocksTotal := acc.usTotal
    cryptoTotal := acc.cryTotal
    grandTotal := acc.indTotal + acc.usTotal + acc.cryTotal
    indianStocksCurrentTotal := acc.indCurrentTotal
    usStocksCurrentTotal := acc.usCurrentTotal
    cryptoCurrentTotal := acc.cryCurrentTotal
    grandCurrentTotal := jsAdd (jsAdd acc.indCurrentTotal acc.usCurrentTotal) acc.cryCurrentTotal }

/-- JavaScript sum of a list of numbers that may be `NaN`, starting from 0. -/
def jsSum (l : List (Option ℚ)) : Option ℚ := l.foldr jsAdd (some 0)

/-- The sum, in the arithmetic of the code, of the current values of the assets
of class `T`. -/
def classCurrentSum (T : String) (A : List Asset) (P : PriceMap) : Option ℚ :=
  jsSum ((A.filter (fun a => decide (a.asset_type = T))).map (currentValue P))

/-! ## Derived display metrics -/

/-- JavaScript division on exact rationals: a zero divisor gives `Infinity`,
`-Infinity` or `NaN`, none of which is a rational, hence `none`. -/
def jsDiv (a b : ℚ) : Option ℚ :=
  if b = 0 then none else some (a / b)

/-- The `percentChange` of `renderSummaryBox` (App.js, line 317):
`purchaseValue > 0 ? ((currentValue - purchaseValue) / purchaseValue) * 100 : 0`. -/
def percentChange (purchaseValue currentValue : ℚ) : Option ℚ :=
  if purchaseValue > 0 then
    (jsDiv (currentValue - purchaseValue) purchaseValue).map (fun q => q * 100)
  else some 0

/-- The decimal digits of `n`, padded on the left with zeros to at least
`width` characters. -/
def padDigits (n width : Nat) : List Char :=
  let m := (Nat.repr n).data
  List.replicate (width - m.length) '0' ++ m

/-- `Number.prototype.toFixed(digits)` on an exact rational of magnitude below
`10^21`: the sign, then the integer `n` nearest to `|x| * 10^digits` (the larger
one on a tie) written with a decimal point before its last `digits` digits. The
code applies it to a double, so the digits can differ from these where the
double differs from the exact value. -/
def toFixed (x : ℚ) (digits : Nat) : String :=
  let n : Nat := (|x| * 10 ^ digits + 1 / 2).floor.toNat
  let m : List Char :=
    if digits = 0 then (Nat.repr n).data
    else
      let z := padDigits n (digits + 1)
      z.take (z.length - digits) ++ '.' :: z.drop (z.length - digits)
  String.mk (if x < 0 then '-' :: m else m)

/-! ## PortfolioCharts (components/PortfolioCharts.js) -/

/-- The props of `PortfolioCharts`. -/
structure ChartsProps where
  assets : List Asset
  indianStocksTotal : ℚ
  usStocksTotal : ℚ
  cryptoTotal : ℚ
  indianStocksCurrentTotal : Option ℚ
  usStocksCurrentTotal : Option ℚ
  cryptoCurrentTotal : Option ℚ
  loading : Bool
  loadingPrices : Bool

/-- The props `App` passes to `PortfolioCharts` (App.js, lines 434-444). -/
def chartsProps (s : AppState) : ChartsProps where
  assets := s.assets
  indianStocksTotal := s.indianStocksTotal
  usStocksTotal := s.usStocksTotal
  cryptoTotal := s.cryptoTotal
  indianStocksCurrentTotal := s.indianStocksCurrentTotal
  usStocksCurrentTotal := s.usStocksCurrentTotal
  cryptoCurrentTotal := s.cryptoCurrentTotal
  loading := s.loading
  loadingPrices := s.loadingPrices

/-- The value of `x || 0` for a number `x`. -/
def orZero (x : ℚ) : ℚ := if x ≠ 0 then x else 0

/-- The value of `x || 0` for a number `x` that may be `NaN`: `NaN` is falsy. -/
def orZeroOfNumber : Option ℚ → ℚ
  | some x => orZero x
  | none => 0

/-- The value of `totalPortfolioValue` (PortfolioCharts.js, lines 23-27). -/
def totalPortfolioValue (p : ChartsProps) : ℚ :=
  orZeroOfNumber p.indianStocksCurrentTotal + orZeroOfNumber p.usStocksCurrentTotal
    + orZeroOfNumber p.cryptoCurrentTotal

/-- The value of `totalPurchaseValue` (PortfolioCharts.js, lines 29-33). -/
def totalPurchaseValue (p : ChartsProps) : ℚ :=
  orZero p.indianStocksTotal + orZero p.usStocksTotal + orZero p.cryptoTotal

/-- The value of `isDataLoaded`: `assets.length > 0`. -/
def isDataLoaded (p : ChartsProps) : Bool := decide (p.assets.length > 0)

/-- The text of the "% Return" box (PortfolioCharts.js, lines 200-203); `none`
when the quotient is not a rational number. -/
def percentReturnText (p : ChartsProps) : Option String :=
  if isDataLoaded p = true ∧ totalPurchaseValue p > 0 then
    (jsDiv (totalPortfolioValue p - totalPurchaseValue p) (totalPurchaseValue p)).map
      (fun q => toFixed (q * 100) 2 ++ "%")
  else some "+8.33%"

/-! ## The edit buffer of AssetList (components/AssetList.js) -/

/-- The value of a numeric key of the edit buffer `editedAssetData`. -/
inductive NumberField where
  /-- The key is not in the object: `undefined`. -/
  | absent
  /-- The empty string `''`, stored when the number input is cleared. -/
  | empty
  /-- The number `NaN`. -/
  | nan
  /-- A number. -/
  | number (q : ℚ)
  deriving DecidableEq

/-- JavaScript truthiness of a numeric key: `undefined`, `''`, `NaN` and `0`
are falsy. -/
def NumberField.truthy : NumberField → Bool
  | NumberField.number q => decide (q ≠ 0)
  | _ => false

/-- JavaScript truthiness of a text key: `undefined` and `''` are falsy. -/
def textTruthy : Option String → Bool
  | some t => decide (t ≠ "")
  | none => false

/-- The object `editedAssetData`: the keys of an asset, each possibly absent. -/
structure EditedAssetData where
  id : Option String
  symbol : Option String
  asset_type : Option String
  purchase_price : NumberField
  quantity : NumberField
  purchase_date : Option String
  deriving DecidableEq

/-- The empty object `{}`. -/
def EditedAssetData.emptyObject : EditedAssetData :=
  { id := none, symbol := none, asset_type := none,
    purchase_price := NumberField.absent, quantity := NumberField.absent,
    purchase_date := none }

/-- The copy `{ ...asset }`. -/
def EditedAssetData.ofAsset (asset : Asset) : EditedAssetData :=
  { id := some asset.id, symbol := some asset.symbol, asset_type := some asset.asset_type,
    purchase_price := NumberField.number asset.purchase_price,
    quantity := NumberField.number asset.quantity,
    purchase_date := some asset.purchase_date }

/-! ## The remote service and the handlers of `App` -/

inductive Method where
  | GET | POST | PUT | DELETE
  deriving DecidableEq

/-- The JSON bodies the front end sends. -/
inductive Body where
  /-- The text `JSON.stringify({ ids: assetIds })`. -/
  | ids (assetIds : List String)
  /-- The text `JSON.stringify({ assets: assetsList })`. -/
  | assets (assetsList : List Asset)
  /-- The text `JSON.stringify(updatedData)`. -/
  | updatedData (data : EditedAssetData)
  /-- The text `JSON.stringify(newAsset)` of AddAssetForm. -/
  | newAsset (symbol asset_type : String) (purchase_price quantity : ℚ)
      (purchase_date : String)
  deriving DecidableEq

/-- One call of `fetch`. -/
structure Request where
  url : String
  method : Method
  headers : List (String × String)
  body : Option Body
  credentials : Option String
  deriving DecidableEq

/-- The JSON value parsed from the body of a non-2xx response, as far as its
member `message` is read. -/
inductive ErrorData where
  /-- The JSON value `null`. Reading a member of it throws a TypeError, whose
  message, worded by the JavaScript engine, is `typeError`. -/
  | null (typeError : String)
  /-- Any other JSON value. Its member `message` is read only through
  `message || fallback` and `new Error(...)`: `message` is the text that
  `new Error` makes of the member when the member is truthy, `some ""` or `none`
  when the member is falsy or the value has none. -/
  | object (message : Option String)
  deriving DecidableEq

/-- The value of `errorData.message`, or the message of the TypeError that
reading it throws. -/
def ErrorData.message : ErrorData → Except String (Option String)
  | ErrorData.null typeError => Except.error typeError
  | ErrorData.object message => Except.ok message

/-- The value of `errorData?.message`, where `errorData` is the parsed body, or
`null` when the body is not JSON. -/
def optionalMessage : Option ErrorData → Option String
  | some (ErrorData.object message) => message
  | _ => none

/-- What a call of `fetch` that expects a body of type `α` comes back with. -/
inductive FetchResult (α : Type) where
  /-- The promise of `fetch` was rejected with an error of this message. -/
  | rejected (message : String)
  /-- A response with `ok` false; the body is `none` when it is not JSON. -/
  | notOk (status : Nat) (errorData : Option ErrorData)
  /-- A response with `ok` true; `response.json()` gives the data or throws
  an error of the given message. -/
  | ok (data : Except String α)

/-- The value of `config.api.endpoints.assets` (config.js, line 16). -/
def assetsEndpoint (API_BASE_URL : String) : String := API_BASE_URL ++ "/assets"

/-- The value of `config.api.endpoints.prices` (config.js, line 20). -/
def pricesEndpoint (API_BASE_URL : String) : String := API_BASE_URL ++ "/api/prices"

/-- The text `HTTP error! status: ${response.status}`. -/
def httpError (status : Nat) : String := "HTTP error! status: " ++ toString status

/-- The value of `a || b` for strings: the empty string is falsy, like
`undefined`. -/
def orElseText (a : Option String) (b : String) : String :=
  match a with
  | some m => if m ≠ "" then m else b
  | none => b

/-- The value of `s.endsWith(t)`. -/
def endsWith (s t : String) : Bool := t.data.isSuffixOf s.data

/-- The value of `s.slice(0, -1)`. -/
def sliceDropLast (s : String) : String := String.mk s.data.dropLast

/-- The function `fetchLivePrices(assetsList)` (App.js, lines 133-161), run to
completion against the result `res` of its request; `now` is `new Date()`. -/
def fetchLivePrices (API_BASE_URL : String) (now : Nat) (s : AppState)
    (assetsList : List Asset) (res : FetchResult PriceMap) : AppState × List Request :=
  if assetsList.length = 0 then (s, [])
  else
    let s1 := { s with loadingPrices := true, priceError := none }
    let req : Request :=
      { url := pricesEndpoint API_BASE_URL
        method := Method.POST
        headers := [("Content-Type", "application/json")]
        body := some (Body.assets assetsList)
        credentials := none }
    let s2 :=
      match res with
      | FetchResult.ok (Except.ok priceData) =>
        { s1 with livePrices := priceData, lastPriceUpdate := some now }
      | _ =>
        { s1 with
          priceError := some "Failed to load live prices. Some features may be limited." }
    ({ s2 with loadingPrices := false }, [req])

/-- The part of `fetchAssets` (App.js, lines 112-115) that runs before its first
`await`: `setLoading(true)` and the list request. -/
def fetchAssetsStart (API_BASE_URL : String) (s : AppState) : AppState × List Request :=
  ({ s with loading := true },
   [{ url := assetsEndpoint API_BASE_URL
      method := Method.GET
      headers := []
      body := none
      credentials := none }])

/-- The rest of `fetchAssets` (App.js, lines 116-129), run against the result
`list` of the list request and the result `prices` of the price request. -/
def fetchAssetsSettle (API_BASE_URL : String) (now : Nat) (s : AppState)
    (list : FetchResult (List Asset)) (prices : FetchResult PriceMap) :
    AppState × List Request :=
  match list with
  | FetchResult.ok (Except.ok data) =>
    let r := fetchLivePrices API_BASE_URL now { s with assets := data, error := none }
      data prices
    ({ r.1 with loading := false }, r.2)
  | _ =>
    ({ s with
       error := some "Failed to load assets. Backend might be down or CORS issue."
       assets := []
       loading := false }, [])

/-- The function `fetchAssets` (App.js, lines 112-130), run to completion. -/
def fetchAssets (API_BASE_URL : String) (now : Nat) (s : AppState)
    (list : FetchResult (List Asset)) (prices : FetchResult PriceMap) :
    AppState × List Request :=
  let r1 := fetchAssetsStart API_BASE_URL s
  let r2 := fetchAssetsSettle API_BASE_URL now r1.1 list prices
  (r2.1, r1.2 ++ r2.2)

/-- The request of `handleBulkDeleteAssets` (App.js, lines 256-268). -/
def bulkDeleteRequest (API_BASE_URL : String) (assetIds : List String) : Request :=
  let url :=
    if endsWith (assetsEndpoint API_BASE_URL) "/" = true then
      sliceDropLast (assetsEndpoint API_BASE_URL)
    else assetsEndpoint API_BASE_URL
  { url := url
    method := Method.DELETE
    headers := [("Content-Type", "application/json"), ("Accept", "application/json")]
    body := some (Body.ids assetIds)
    credentials := some "omit" }

/-- The handler `handleBulkDeleteAssets(assetIds)` (App.js, lines 249-284), up
to the point where its promise settles, against the result `res` of its
request. `assetIds = none` stands for `null` and `undefined`. On success the
handler starts `fetchAssets()` without awaiting it, so the state returned has
that call's `setLoading(true)` and the requests include its list request. -/
def handleBulkDeleteAssets (API_BASE_URL : String) (s : AppState)
    (assetIds : Option (List String)) (res : FetchResult Unit) :
    AppState × List Request :=
  match assetIds with
  | none => (s, [])
  | some ids =>
    if ids.length = 0 then (s, [])
    else
      let req := bulkDeleteRequest API_BASE_URL ids
      let failed (message : String) : AppState :=
        { s with
          error := some ("Failed to delete selected assets: " ++ message
            ++ ". Please try again.") }
      match res with
      | FetchResult.rejected message => (failed message, [req])
      | FetchResult.notOk status errorData =>
        let errorData := errorData.getD (ErrorData.object (some (httpError status)))
        match errorData.message with
        | Except.ok message => (failed (orElseText message (httpError status)), [req])
        | Except.error typeError => (failed typeError, [req])
      | FetchResult.ok (Except.error message) => (failed message, [req])
      | FetchResult.ok (Except.ok _) =>
        let r := fetchAssetsStart API_BASE_URL s
        ({ r.1 with error := none }, req :: r.2)

/-- The handler `handleDeleteAsset(assetId)` (App.js, lines 225-247), against
the result `res` of its request; the body of a response with `ok` true is not
read. -/
def handleDeleteAsset (API_BASE_URL : String) (s : AppState) (assetId : String)
    (res : FetchResult Unit) : AppState × List Request :=
  let req : Request :=
    { url := assetsEndpoint API_BASE_URL ++ "/" ++ assetId
      method := Method.DELETE
      headers := []
      body := none
      credentials := none }
  let failed (message : String) : AppState :=
    { s with error := some ("Failed to delete asset: " ++ message) }
  match res with
  | FetchResult.rejected message => (failed message, [req])
  | FetchResult.notOk status errorData =>
    (failed (orElseText (optionalMessage errorData) (httpError status)), [req])
  | FetchResult.ok _ =>
    ({ s with
       assets := s.assets.filter (fun asset => decide (asset.id ≠ assetId))
       error := none }, [req])

/-- The handler `handleUpdateAsset(assetId, updatedData)` (App.js, lines
286-312), against the result `res` of its request: the new state, the requests
issued and the boolean returned. -/
def handleUpdateAsset (API_BASE_URL : String) (s : AppState) (assetId : String)
    (updatedData : EditedAssetData) (res : FetchResult Asset) :
    AppState × List Request × Bool :=
  let req : Request :=
    { url := assetsEndpoint API_BASE_URL ++ "/" ++ assetId
      method := Method.PUT
      headers := [("Content-Type", "application/json")]
      body := some (Body.updatedData updatedData)
      credentials := none }
  let failed (message : String) : AppState :=
    { s with error := some ("Failed to update asset: " ++ message) }
  match res with
  | FetchResult.rejected message => (failed message, [req], false)
  | FetchResult.notOk status errorData =>
    (failed (orElseText (optionalMessage errorData) (httpError status)),
      [req], false)
  | FetchResult.ok (Except.error message) => (failed message, [req], false)
  | FetchResult.ok (Except.ok returnedAsset) =>
    ({ s with
       assets := s.assets.map (fun asset => if asset.id = assetId then returnedAsset else asset)
       error := none }, [req], true)

/-! ## AddAssetForm (components/AddAssetForm.js) -/

/-- The state of `AddAssetForm` that `handleSubmit` reads or writes. The date
picker value is `none` for `null` and otherwise stands for the text
`purchaseDate.format('YYYY-MM-DD')`. -/
structure FormState where
  symbol : String
  assetType : String
  purchasePrice : String
  quantity : String
  purchaseDate : Option String
  submitting : Bool
  error : Option String
  deriving DecidableEq

/-- What a run of `handleSubmit` leaves: the form state, the requests issued
and whether the callbacks `onAssetAdded` and `handleClose` were called. -/
structure SubmitOutcome where
  form : FormState
  requests : List Request
  onAssetAdded : Bool
  handleClose : Bool
  deriving DecidableEq

/-- The function `resetForm` (AddAssetForm.js, lines 92-99); `today` is
`dayjs()`. -/
def resetForm (today : String) (f : FormState) : FormState :=
  { f with
    symbol := ""
    assetType := ASSET_TYPE_INDIAN_STOCK
    purchasePrice := ""
    quantity := ""
    purchaseDate := some today
    error := none }

/-- The handler `handleSubmit` (AddAssetForm.js, lines 101-152), against the
result `res` of its request. `parseFloat` and `toUpperCase` are the JavaScript
built-ins, `parseFloat` giving `none` for `NaN`. -/
def handleSubmit (parseFloat : String → Option ℚ) (toUpperCase : String → String)
    (API_BASE_URL today : String) (f : FormState) (res : FetchResult Unit) :
    SubmitOutcome :=
  let rejectWith (message : String) : SubmitOutcome :=
    { form := { f with error := some message }
      requests := [], onAssetAdded := false, handleClose := false }
  if f.symbol = "" ∨ f.assetType = "" ∨ f.purchasePrice = "" ∨ f.quantity = "" then
    rejectWith "All fields are required."
  else
    match f.purchaseDate with
    | none => rejectWith "All fields are required."
    | some date =>
      match parseFloat f.purchasePrice with
      | none => rejectWith "Purchase price must be a positive number."
      | some price =>
        if price ≤ 0 then rejectWith "Purchase price must be a positive number."
        else
          match parseFloat f.quantity with
          | none => rejectWith "Quantity must be a positive number."
          | some qty =>
            if qty ≤ 0 then rejectWith "Quantity must be a positive number."
            else
              let req : Request :=
                { url := assetsEndpoint API_BASE_URL
                  method := Method.POST
                  headers := [("Content-Type", "application/json")]
                  body := some
                    (Body.newAsset (toUpperCase f.symbol) f.assetType price qty date)
                  credentials := none }
              let f1 := { f with submitting := true, error := none }
              let caught (message : String) : SubmitOutcome :=
                { form :=
                    { f1 with
                      error := some (orElseText (some message) "An unexpected error occurred.")
                      submitting := false }
                  requests := [req], onAssetAdded := false, handleClose := false }
              match res with
              | FetchResult.rejected message => caught message
              | FetchResult.notOk status errorData =>
                let errorData :=
                  errorData.getD (ErrorData.object (some "Failed to add asset"))
                match errorData.message with
                | Except.ok message => caught (orElseText message (httpError status))
                | Except.error typeError => caught typeError
              | FetchResult.ok (Except.error message) => caught message
              | FetchResult.ok (Except.ok _) =>
                { form := { resetForm today f1 with submitting := false }
                  requests := [req], onAssetAdded := true, handleClose := true }

/-! ## AssetList (components/AssetList.js) -/

/-- The state of `AssetList` (its `useState` cells). -/
structure AssetListState where
  selectedTabValue : Nat
  editingAssetId : Option String
  editedAssetData : EditedAssetData
  showLivePrices : Bool
  selectedAssets : List String
  deriving DecidableEq

/-- The initial values of the `useState` cells of `AssetList`. -/
def AssetListState.initial : AssetListState :=
  { selectedTabValue := 0, editingAssetId := none,
    editedAssetData := EditedAssetData.emptyObject, showLivePrices := true,
    selectedAssets := [] }

/-- A change event of one of the three inputs of a row in edit mode: the
number inputs named `purchase_price` and `quantity` and the date input named
`purchase_date`, each with the text `event.target.value`. -/
inductive EditEvent where
  | purchase_price (value : String)
  | quantity (value : String)
  | purchase_date (value : String)
  deriving DecidableEq

/-- The `processedValue` of a number input (AssetList.js, line 73):
`value === '' ? '' : parseFloat(value)`. -/
def processedNumber (parseFloat : String → Option ℚ) (value : String) : NumberField :=
  if value = "" then NumberField.empty
  else
    match parseFloat value with
    | some q => NumberField.number q
    | none => NumberField.nan

/-- The handler `handleEditDataChange` (AssetList.js, lines 69-81). -/
def handleEditDataChange (parseFloat : String → Option ℚ) (st : AssetListState)
    (event : EditEvent) : AssetListState :=
  match event with
  | EditEvent.purchase_price value =>
    { st with
      editedAssetData :=
        { st.editedAssetData with purchase_price := processedNumber parseFloat value } }
  | EditEvent.quantity value =>
    { st with
      editedAssetData :=
        { st.editedAssetData with quantity := processedNumber parseFloat value } }
  | EditEvent.purchase_date value =>
    { st with editedAssetData := { st.editedAssetData with purchase_date := some value } }

/-- The `onClick` of the "edit asset" button of the row of `asset`
(AssetList.js, lines 297-300). -/
def editAssetOnClick (st : AssetListState) (asset : Asset) : AssetListState :=
  { st with editingAssetId := some asset.id, editedAssetData := EditedAssetData.ofAsset asset }

/-- The `onClick` of the "save asset" button (AssetList.js, lines 275-287): the
new state and the calls of `onUpdateAsset` it made, each with its two
arguments; `success` is what the awaited call returns. -/
def saveAssetOnClick (st : AssetListState) (success : Bool) :
    AssetListState × List (Option String × EditedAssetData) :=
  if st.editedAssetData.purchase_price.truthy = false
      ∨ st.editedAssetData.quantity.truthy = false
      ∨ textTruthy st.editedAssetData.purchase_date = false then
    (st, [])
  else if success = true then
    ({ st with editingAssetId := none, editedAssetData := EditedAssetData.emptyObject },
      [(st.editingAssetId, st.editedAssetData)])
  else (st, [(st.editingAssetId, st.editedAssetData)])

/-! ## Price refresh: the button and the timer (App.js, lines 163-177) -/

/-- The handler `handleRefreshPrices` (App.js, lines 164-166): `fetchLivePrices()`
of the current render, whose default argument `assetsList = assets` is the asset
list of the state `s` of that render. -/
def handleRefreshPrices (API_BASE_URL : String) (now : Nat) (s : AppState)
    (res : FetchResult PriceMap) : AppState × List Request :=
  fetchLivePrices API_BASE_URL now s s.assets res

/-- The callback that the mount effect passes to `setInterval` (App.js, lines
172-174): `fetchLivePrices()` of the render in which the effect ran. Its default
argument `assetsList = assets` reads the `assets` of that render, `mounted`; its
setters act on the state `s` held when the timer fires. -/
def intervalCallback (API_BASE_URL : String) (now : Nat) (mounted s : AppState)
    (res : FetchResult PriceMap) : AppState × List Request :=
  fetchLivePrices API_BASE_URL now s mounted.assets res

/-- A tick of the timer installed at mount. The effect has the empty dependency
list `[]`, so it runs in the first render only, where every `useState` cell has
its initial value. -/
def timerTick (API_BASE_URL : String) (now : Nat) (s : AppState)
    (res : FetchResult PriceMap) : AppState × List Request :=
  intervalCallback API_BASE_URL now AppState.initial s res

/-! ## Selection in AssetList (components/AssetList.js, lines 106-159) -/

/-- The value of `selectedAssets.indexOf(id)`, with `none` for `-1`. -/
def indexOf : List String → String → Option Nat
  | [], _ => none
  | x :: xs, id => if x = id then some 0 else (indexOf xs id).map (fun i => i + 1)

/-- The handler `handleSelectAllClick(event, assetsOfType)` (AssetList.js, lines
106-113); `checked` is `event.target.checked`. -/
def handleSelectAllClick (st : AssetListState) (checked : Bool)
    (assetsOfType : List Asset) : AssetListState :=
  if checked = true then { st with selectedAssets := assetsOfType.map (fun n => n.id) }
  else { st with selectedAssets := [] }

/-- The handler `handleCheckboxClick(event, id)` (AssetList.js, lines 115-132). -/
def handleCheckboxClick (st : AssetListState) (id : String) : AssetListState :=
  let selectedAssets := st.selectedAssets
  let newSelected : List String :=
    match indexOf selectedAssets id with
    | none => selectedAssets ++ [id]
    | some selectedIndex =>
      if selectedIndex = 0 then selectedAssets.drop 1
      else if selectedIndex = selectedAssets.length - 1 then selectedAssets.dropLast
      else selectedAssets.take selectedIndex ++ selectedAssets.drop (selectedIndex + 1)
  { st with selectedAssets := newSelected }

/-- The handler `handleBulkDelete` (AssetList.js, lines 134-139): the new state
and the calls of `onBulkDeleteAssets` it made, each with its argument;
`provided` tells whether the prop `onBulkDeleteAssets` was given. -/
def handleBulkDelete (st : AssetListState) (provided : Bool) :
    AssetListState × List (List String) :=
  if provided = true then ({ st with selectedAssets := [] }, [st.selectedAssets])
  else (st, [])

/-- The rows of the table of a class: `assets.filter(asset => asset.asset_type
=== T)` (AssetList.js, lines 153-155). -/
def assetsOfClass (assets : List Asset) (T : String) : List Asset :=
  assets.filter (fun asset => decide (asset.asset_type = T))

/-- The value of `numSelected` in `renderAssetTable` (AssetList.js, line 158). -/
def numSelected (st : AssetListState) (assetsOfType : List Asset) : Nat :=
  (st.selectedAssets.filter
    (fun id => assetsOfType.any (fun asset => decide (asset.id = id)))).length

/-- The value of `rowCount` in `renderAssetTable` (AssetList.js, line 159). -/
def rowCount (assetsOfType : List Asset) : Nat := assetsOfType.length

/-- The text of the "Delete Selected" button of a non-empty table, `none` when
the button is not rendered (AssetList.js, lines 166-172). -/
def deleteSelectedText (st : AssetListState) (assetsOfType : List Asset) : Option String :=
  if numSelected st assetsOfType > 0 then
    some ("Delete Selected (" ++ toString (numSelected st assetsOfType) ++ ")")
  else none

/-! ## Allocation shares of PortfolioCharts (PortfolioCharts.js, lines 48-59, 246-251) -/

/-- An entry of `assetData` or `demoData`. -/
structure ChartItem where
  name : String
  purchase : ℚ
  current : ℚ
  deriving DecidableEq

/-- The value of `assetData` (PortfolioCharts.js, lines 48-52). -/
def assetData (p : ChartsProps) : List ChartItem :=
  [{ name := "Indian Stocks", purchase := orZero p.indianStocksTotal,
     current := orZeroOfNumber p.indianStocksCurrentTotal },
   { name := "US Stocks", purchase := orZero p.usStocksTotal,
     current := orZeroOfNumber p.usStocksCurrentTotal },
   { name := "Crypto", purchase := orZero p.cryptoTotal,
     current := orZeroOfNumber p.cryptoCurrentTotal }]

/-- The value of `demoData` (PortfolioCharts.js, lines 55-59). -/
def demoData : List ChartItem :=
  [{ name := "Indian Stocks", purchase := 4000, current := 5000 },
   { name := "US Stocks", purchase := 3000, current := 2800 },
   { name := "Crypto", purchase := 2000, current := 3200 }]

/-- The allocation blocks displayed (PortfolioCharts.js, lines 233-248): none
while `loading`, when a spinner is rendered in their place, and otherwise
`(isDataLoaded ? assetData : demoData).filter(item => item.current > 0)`. -/
def displayedItems (p : ChartsProps) : List ChartItem :=
  if p.loading = true then []
  else
    (if isDataLoaded p = true then assetData p else demoData).filter
      (fun item => decide (item.current > 0))

/-- The divisor `totalPortfolioValue || 1`. -/
def allocationDivisor (p : ChartsProps) : ℚ :=
  if totalPortfolioValue p ≠ 0 then totalPortfolioValue p else 1

/-- The share `(item.current / (totalPortfolioValue || 1)) * 100` of a loaded
portfolio, before rounding, with the numbers taken as exact rationals. -/
def allocationShare (p : ChartsProps) (item : ChartItem) : Option ℚ :=
  (jsDiv item.current (allocationDivisor p)).map (fun q => q * 100)

/-- The value of `percentage` (PortfolioCharts.js, lines 249-251), as the text
rendered before the percent sign. -/
def allocationPercentage (p : ChartsProps) (item : ChartItem) : Option String :=
  if isDataLoaded p = true then (allocationShare p item).map (fun q => toFixed q 1)
  else some (if item.name = "Indian Stocks" then "40"
    else if item.name = "US Stocks" then "30" else "30")

/-! ## LivePriceInfo (components/LivePriceInfo.js) -/

/-- The object returned by `calculateProfitLoss`; `percent` is `none` when the
quotient is not a rational number. -/
structure ProfitLoss where
  value : ℚ
  percent : Option ℚ
  currentValue : ℚ
  deriving DecidableEq

/-- The function `calculateProfitLoss` (LivePriceInfo.js, lines 27-40) for the
state `livePrice` (`none` for `null` and `undefined`) and the prop `asset`
(`none` when missing), with the numbers taken as exact rationals; the result
`none` is `null`. -/
def calculateProfitLoss (livePrice : Option ℚ) (asset : Option Asset) : Option ProfitLoss :=
  match livePrice, asset with
  | some livePrice, some asset =>
    if livePrice = 0 then none
    else
      let currentValue := livePrice * asset.quantity
      let costBasis := asset.purchase_price * asset.quantity
      let profitLoss := currentValue - costBasis
      let profitLossPercent := (jsDiv profitLoss costBasis).map (fun q => q * 100)
      some { value := profitLoss, percent := profitLossPercent, currentValue := currentValue }
  | _, _ => none

/-- The label of the chip of `renderProfitLossIndicator` (LivePriceInfo.js, lines
93-129); the outer `none` is `null` and the inner one a percent that is not a
rational number. -/
def renderProfitLossIndicator (profitLoss : Option ProfitLoss) : Option (Option String) :=
  match profitLoss with
  | none => none
  | some r =>
    if r.value > 0 then some (r.percent.map (fun q => "+" ++ toFixed q 2 ++ "%"))
    else if r.value < 0 then some (r.percent.map (fun q => toFixed q 2 ++ "%"))
    else some (some "0.00%")

/-! ## IEEE 754 double precision, for results in the normal range -/

/-- The integer nearest to `x`, the even one of the two on a tie. -/
def roundHalfEven (x : ℚ) : ℤ :=
  if x - ⌊x⌋ < 1 / 2 then ⌊x⌋
  else if 1 / 2 < x - ⌊x⌋ then ⌊x⌋ + 1
  else if ⌊x⌋ % 2 = 0 then ⌊x⌋ else ⌊x⌋ + 1

/-- The double nearest to the real number `x` (round to nearest, ties to even),
for `x` in the normal range of binary64: with `2^e ≤ |x| < 2^(e+1)` the doubles
around `x` are the multiples of `2^(e-52)`. -/
def roundDouble (x : ℚ) : ℚ :=
  if x = 0 then 0
  else roundHalfEven (x / 2 ^ (Int.log 2 |x| - 52)) * 2 ^ (Int.log 2 |x| - 52)

/-- The double `a + b` of two doubles. -/
def doubleAdd (a b : ℚ) : ℚ := roundDouble (a + b)

/-- The double `a - b` of two doubles. -/
def doubleSub (a b : ℚ) : ℚ := roundDouble (a - b)

/-- The double `a * b` of two doubles. -/
def doubleMul (a b : ℚ) : ℚ := roundDouble (a * b)

/-- The double `a / b` of two doubles, `none` when `b` is 0 and the quotient is
an infinity or `NaN`. -/
def doubleDiv (a b : ℚ) : Option ℚ :=
  if b = 0 then none else some (roundDouble (a / b))

/-- The value of `totalPortfolioValue` (PortfolioCharts.js, lines 23-27) in
double arithmetic. -/
def totalPortfolioValueDouble (p : ChartsProps) : ℚ :=
  doubleAdd
    (doubleAdd (orZeroOfNumber p.indianStocksCurrentTotal)
      (orZeroOfNumber p.usStocksCurrentTotal))
    (orZeroOfNumber p.cryptoCurrentTotal)

/-- The share `(item.current / (totalPortfolioValue || 1)) * 100`
(PortfolioCharts.js, line 250) in double arithmetic, before `toFixed`. -/
def allocationShareDouble (p : ChartsProps) (item : ChartItem) : Option ℚ :=
  (doubleDiv item.current
    (if totalPortfolioValueDouble p ≠ 0 then totalPortfolioValueDouble p else 1)).map
    (fun q => doubleMul q 100)

/-- The function `calculateProfitLoss` (LivePriceInfo.js, lines 27-40) in double
arithmetic. -/
def calculateProfitLossDouble (livePrice : Option ℚ) (asset : Option Asset) :
    Option ProfitLoss :=
  match livePrice, asset with
  | some livePrice, some asset =>
    if livePrice = 0 then none
    else
      let currentValue := doubleMul livePrice asset.quantity
      let costBasis := doubleMul asset.purchase_price asset.quantity
      let profitLoss := doubleSub currentValue costBasis
      let profitLossPercent := (doubleDiv profitLoss costBasis).map (fun q => doubleMul q 100)
      some { value := profitLoss, percent := profitLossPercent, currentValue := currentValue }
  | _, _ => none

/-! ## Specification-side totals algebra -/

/-- The componentwise sum of two records of totals, in the arithmetic of the
code: a sum with `NaN` is `NaN`. -/
def Totals.add (a b : Totals) : Totals where
  indianStocksTotal := a.indianStocksTotal + b.indianStocksTotal
  usStocksTotal := a.usStocksTotal + b.usStocksTotal
  cryptoTotal := a.cryptoTotal + b.cryptoTotal
  grandTotal := a.grandTotal + b.grandTotal
  indianStocksCurrentTotal := jsAdd a.indianStocksCurrentTotal b.indianStocksCurrentTotal
  usStocksCurrentTotal := jsAdd a.usStocksCurrentTotal b.usStocksCurrentTotal
  cryptoCurrentTotal := jsAdd a.cryptoCurrentTotal b.cryptoCurrentTotal
  grandCurrentTotal := jsAdd a.grandCurrentTotal b.grandCurrentTotal

/-- The record of totals that are all 0. -/
def Totals.zero : Totals := ⟨0, 0, 0, 0, some 0, some 0, some 0, some 0⟩

/-- The eight totals the effect computes for an asset list and a price map. -/
def totalsOf (A : List Asset) (P : PriceMap) : Totals :=
  (recomputeTotals { AppState.initial with assets := A, livePrices := P }).totals

/-! ## Specification-side failure text -/

/-- Spec wording: the text of a remote failure is the message of the thrown
error, or for a non-2xx response the server-provided message if present, else
the generic status-derived message; a 2xx response is no failure. -/
def specFailureText {α : Type} (res : FetchResult α) : Option String :=
  match res with
  | FetchResult.rejected message => some message
  | FetchResult.notOk status (some (ErrorData.object (some m))) =>
    if m = "" then some (httpError status) else some m
  | FetchResult.notOk status _ => some (httpError status)
  | FetchResult.ok _ => none

/-! ## Specification-side sums -/

/-- Spec wording: the price of an asset is the entry of the price map for its
symbol when there is one and it is non-zero, and its purchase price otherwise. -/
def specPrice (P : PriceMap) (a : Asset) : ℚ :=
  match P.lookup a.symbol with
  | some p => if p = 0 then a.purchase_price else p
  | none => a.purchase_price

/-- Spec wording: the sum of `price × quantity` over the assets of class `T`. -/
def specCurrentTotal (T : String) (A : List Asset) (P : PriceMap) : ℚ :=
  ((A.filter (fun a => a.asset_type = T)).map (fun a => specPrice P a * a.quantity)).sum

/-- Spec wording: the sum of `purchase_price × quantity` over the assets of
class `T`. -/
def specPurchaseTotal (T : String) (A : List Asset) : ℚ :=
  ((A.filter (fun a => a.asset_type = T)).map (fun a => a.purchase_price * a.quantity)).sum

/-! ## Sample data -/

/-- The asset of the first scenario: ten shares of RELIANCE.NS bought at 2500. -/
def relianceAsset : Asset :=
  { id := "1", symbol := "RELIANCE.NS", asset_type := "Indian Stock",
    purchase_price := 2500, quantity := 10, purchase_date := "2023-01-15" }

/-- The asset of the second scenario: 0.05 BTC bought at 2500000. -/
def bitcoinAsset : Asset :=
  { id := "3", symbol := "BTC", asset_type := "Crypto",
    purchase_price := 2500000, quantity := 5 / 100, purchase_date := "2023-03-10" }

/-- The second asset of the AssetList tests: twenty shares of INFY.NS. -/
def infosysAsset : Asset :=
  { id := "2", symbol := "INFY.NS", asset_type := "Indian Stock",
    purchase_price := 1500, quantity := 20, purchase_date := "2023-02-20" }

/-- The third asset of the AssetList tests: five shares of AAPL. -/
def appleAsset : Asset :=
  { id := "3", symbol := "AAPL", asset_type := "US Stock",
    purchase_price := 15000, quantity := 5, purchase_date := "2023-03-10" }

/-- An asset with a purchase price of 0: two BTC received for free. -/
def giftedAsset : Asset :=
  { id := "4", symbol := "BTC", asset_type := "Crypto",
    purchase_price := 0, quantity := 2, purchase_date := "2023-04-01" }

/-- The values of `parseFloat` on the texts typed in the scenarios; `NaN`
elsewhere. -/
def sampleParseFloat (t : String) : Option ℚ :=
  if t = "2600" then some 2600
  else if t = "12" then some 12
  else if t = "-5" then some (-5)
  else if t = "0" then some 0
  else none

/-- A filled form: twelve shares of TCS.NS at 2600. -/
def sampleForm : FormState :=
  { symbol := "TCS.NS", assetType := "Indian Stock", purchasePrice := "2600",
    quantity := "12", purchaseDate := some "2023-01-20", submitting := false,
    error := none }

/-- The state of `AssetList` after pressing "edit asset" on the RELIANCE.NS row
and typing -5 into its purchase price input. -/
def negativePriceEdit : AssetListState :=
  handleEditDataChange sampleParseFloat
    (editAssetOnClick AssetListState.initial relianceAsset)
    (EditEvent.purchase_price "-5")

/-- The state of `AssetList` after pressing "edit asset" on the RELIANCE.NS row
and clearing its quantity input. -/
def clearedQuantityEdit : AssetListState :=
  handleEditDataChange sampleParseFloat
    (editAssetOnClick AssetListState.initial relianceAsset)
    (EditEvent.quantity "")

/-- Props of PortfolioCharts for a loaded portfolio holding 25000 of Indian
stocks, no US stocks and 75000 of crypto at current prices. -/
def sampleChartsProps : ChartsProps :=
  { assets := [relianceAsset, bitcoinAsset]
    indianStocksTotal := 25000, usStocksTotal := 0, cryptoTotal := 125000
    indianStocksCurrentTotal := some 25000, usStocksCurrentTotal := some 0
    cryptoCurrentTotal := some 75000
    loading := false, loadingPrices := false }

/-- An asset whose symbol is the name of a member of `Object.prototype`. -/
def constructorAsset : Asset :=
  { id := "5", symbol := "constructor", asset_type := "Indian Stock",
    purchase_price := 2500, quantity := 10, purchase_date := "2023-01-15" }

/-- The double written `0.1`. -/
def double_0_1 : ℚ := 3602879701896397 / 36028797018963968

/-- The double written `0.3`. -/
def double_0_3 : ℚ := 5404319552844595 / 18014398509481984

/-- An asset bought at the double `0.1`, in the given quantity. -/
def dimeAsset (quantity : ℚ) : Asset :=
  { id := "6", symbol := "DIME", asset_type := "US Stock",
    purchase_price := double_0_1, quantity := quantity, purchase_date := "2023-06-01" }

/-- Props of PortfolioCharts for a loaded portfolio with the current totals 1,
2 and 0. -/
def thirdsChartsProps : ChartsProps :=
  { assets := [relianceAsset, appleAsset]
    indianStocksTotal := 1, usStocksTotal := 2, cryptoTotal := 0
    indianStocksCurrentTotal := some 1, usStocksCurrentTotal := some 2
    cryptoCurrentTotal := some 0
    loading := false, loadingPrices := false }

/-- A state holding the given assets and prices and arbitrary stale totals. -/
def staleState (assets : List Asset) (livePrices : PriceMap) (stale : ℚ) : AppState :=
  { AppState.initial with
    assets := assets
    livePrices := livePrices
    loading := false
    indianStocksTotal := stale
    usStocksTotal := stale
    cryptoTotal := stale
    grandTotal := stale
    indianStocksCurrentTotal := some stale
    usStocksCurrentTotal := some stale
    cryptoCurrentTotal := some stale
    grandCurrentTotal := some stale }

/-! ## Lemmas on the loop -/

theorem jsAdd_assoc (a b c : Option ℚ) : jsAdd (jsAdd a b) c = jsAdd a (jsAdd b c) := by
  cases a <;> cases b <;> cases c <;> simp [jsAdd, add_assoc]

theorem jsAdd_comm (a b : Option ℚ) : jsAdd a b = jsAdd b a := by
  cases a <;> cases b <;> simp [jsAdd, add_comm]

theorem jsAdd_zero (a : Option ℚ) : jsAdd a (some 0) = a := by
  cases a <;> simp [jsAdd]

theorem zero_jsAdd (a : Option ℚ) : jsAdd (some 0) a = a := by
  cases a <;> simp [jsAdd]

theorem jsSum_append (l m : List (Option ℚ)) : jsSum (l ++ m) = jsAdd (jsSum l) (jsSum m) := by
  induction l with
  | nil => simp [jsSum, zero_jsAdd]
  | cons x l ih =>
    have hx : jsSum (x :: l ++ m) = jsAdd x (jsSum (l ++ m)) := rfl
    have hy : jsSum (x :: l) = jsAdd x (jsSum l) := rfl
    rw [hx, hy, ih, jsAdd_assoc]

theorem jsSum_perm (l m : List (Option ℚ)) (h : l.Perm m) : jsSum l = jsSum m := by
  induction h with
  | nil => rfl
  | cons x _ ih =>
    show jsAdd x (jsSum _) = jsAdd x (jsSum _)
    rw [ih]
  | swap x y l =>
    show jsAdd y (jsAdd x (jsSum l)) = jsAdd x (jsAdd y (jsSum l))
    rw [← jsAdd_assoc, ← jsAdd_assoc, jsAdd_comm y x]
  | trans _ _ ih1 ih2 => exact ih1.trans ih2

/-- For a symbol that does not read an inherited member, the current value is
the price of the spec wording times the quantity. -/
theorem currentValue_eq_specPrice (P : PriceMap) (a : Asset)
    (h : getMember P a.symbol ≠ Member.inherited) :
    currentValue P a = some (specPrice P a * a.quantity) := by
  unfold currentValue specPrice purchaseValue
  unfold getMember at h ⊢
  cases hl : P.lookup a.symbol with
  | none =>
    rw [hl] at h
    by_cases hk : a.symbol ∈ objectPrototypeKeys
    · simp [hk] at h
    · simp [hk]
  | some p => by_cases hp : p = 0 <;> simp [hp]

/-- For a symbol that names an inherited member and has no entry of its own,
the current value is `NaN`. -/
theorem currentValue_of_inherited (P : PriceMap) (a : Asset)
    (h : getMember P a.symbol = Member.inherited) : currentValue P a = none := by
  unfold currentValue
  rw [h]

theorem specPurchaseTotal_cons (T : String) (a : Asset) (A : List Asset) :
    specPurchaseTotal T (a :: A) =
      (if a.asset_type = T then a.purchase_price * a.quantity else 0)
        + specPurchaseTotal T A := by
  unfold specPurchaseTotal
  by_cases h : a.asset_type = T <;> simp [List.filter_cons, h]

theorem specCurrentTotal_cons (T : String) (a : Asset) (A : List Asset) (P : PriceMap) :
    specCurrentTotal T (a :: A) P =
      (if a.asset_type = T then specPrice P a * a.quantity else 0)
        + specCurrentTotal T A P := by
  unfold specCurrentTotal
  by_cases h : a.asset_type = T <;> simp [List.filter_cons, h]

theorem classCurrentSum_cons (T : String) (a : Asset) (A : List Asset) (P : PriceMap) :
    classCurrentSum T (a :: A) P =
      if a.asset_type = T then jsAdd (currentValue P a) (classCurrentSum T A P)
      else classCurrentSum T A P := by
  unfold classCurrentSum
  by_cases h : a.asset_type = T <;> simp [List.filter_cons, h, jsSum]

theorem foldl_accumulate (P : PriceMap) (A : List Asset) (acc : Accumulators) :
    A.foldl (accumulate P) acc =
      { indTotal := acc.indTotal + specPurchaseTotal ASSET_TYPE_INDIAN_STOCK A
        usTotal := acc.usTotal + specPurchaseTotal ASSET_TYPE_US_STOCK A
        cryTotal := acc.cryTotal + specPurchaseTotal ASSET_TYPE_CRYPTO A
        indCurrentTotal :=
          jsAdd acc.indCurrentTotal (classCurrentSum ASSET_TYPE_INDIAN_STOCK A P)
        usCurrentTotal := jsAdd acc.usCurrentTotal (classCurrentSum ASSET_TYPE_US_STOCK A P)
        cryCurrentTotal :=
          jsAdd acc.cryCurrentTotal (classCurrentSum ASSET_TYPE_CRYPTO A P) } := by
  induction A generalizing acc with
  | nil => simp [specPurchaseTotal, classCurrentSum, jsSum, jsAdd_zero]
  | cons a A ih =>
    rw [List.foldl_cons, ih]
    simp only [specPurchaseTotal_cons, classCurrentSum_cons]
    unfold accumulate
    by_cases h1 : a.asset_type = ASSET_TYPE_INDIAN_STOCK
    · have h2 : ¬ ASSET_TYPE_INDIAN_STOCK = ASSET_TYPE_US_STOCK := by decide
      have h3 : ¬ ASSET_TYPE_INDIAN_STOCK = ASSET_TYPE_CRYPTO := by decide
      simp [h1, h2, h3, purchaseValue, add_assoc, jsAdd_assoc]
    · by_cases h2 : a.asset_type = ASSET_TYPE_US_STOCK
      · have h3 : ¬ ASSET_TYPE_US_STOCK = ASSET_TYPE_CRYPTO := by decide
        have h4 : ¬ ASSET_TYPE_US_STOCK = ASSET_TYPE_INDIAN_STOCK := by decide
        simp [h2, h3, h4, purchaseValue, add_assoc, jsAdd_assoc]
      · by_cases h3 : a.asset_type = ASSET_TYPE_CRYPTO
        · have h4 : ¬ ASSET_TYPE_CRYPTO = ASSET_TYPE_INDIAN_STOCK := by decide
          have h5 : ¬ ASSET_TYPE_CRYPTO = ASSET_TYPE_US_STOCK := by decide
          simp [h3, h4, h5, purchaseValue, add_assoc, jsAdd_assoc]
        · simp [h1, h2, h3]

theorem runLoop_eq (P : PriceMap) (A : List Asset) :
    runLoop P A =
      { indTotal := specPurchaseTotal ASSET_TYPE_INDIAN_STOCK A
        usTotal := specPurchaseTotal ASSET_TYPE_US_STOCK A
        cryTotal := specPurchaseTotal ASSET_TYPE_CRYPTO A
        indCurrentTotal := classCurrentSum ASSET_TYPE_INDIAN_STOCK A P
        usCurrentTotal := classCurrentSum ASSET_TYPE_US_STOCK A P
        cryCurrentTotal := classCurrentSum ASSET_TYPE_CRYPTO A P } := by
  unfold runLoop
  rw [foldl_accumulate]
  simp [Accumulators.zero, zero_jsAdd]

/-- When no symbol of the list reads an inherited member, the sum of the code
is the sum of the spec wording. -/
theorem classCurrentSum_of_own_symbols (T : String) (A : List Asset) (P : PriceMap)
    (h : ∀ a ∈ A, getMember P a.symbol ≠ Member.inherited) :
    classCurrentSum T A P = some (specCurrentTotal T A P) := by
  induction A with
  | nil => simp [classCurrentSum, specCurrentTotal, jsSum]
  | cons a A ih =>
    rw [classCurrentSum_cons, specCurrentTotal_cons,
      ih (fun b hb => h b (List.mem_cons_of_mem a hb)),
      currentValue_eq_specPrice P a (h a (List.mem_cons_self a A))]
    by_cases hT : a.asset_type = T <;> simp [hT, jsAdd]

/-- An asset whose symbol is unpriced, or priced at zero, and reads no inherited
member is valued at its purchase value. -/
theorem currentValue_of_unpriced (P : PriceMap) (a : Asset)
    (hown : getMember P a.symbol ≠ Member.inherited)
    (h : P.lookup a.symbol = none ∨ P.lookup a.symbol = some 0) :
    currentValue P a = some (purchaseValue a) := by
  rw [currentValue_eq_specPrice P a hown]
  unfold specPrice purchaseValue
  rcases h with h | h <;> simp [h]

/-- An asset of an unrecognised type leaves the accumulators as they are. -/
theorem accumulate_of_unrecognised (P : PriceMap) (acc : Accumulators) (x : Asset)
    (h1 : x.asset_type ≠ "Indian Stock") (h2 : x.asset_type ≠ "US Stock")
    (h3 : x.asset_type ≠ "Crypto") : accumulate P acc x = acc := by
  unfold accumulate
  simp [ASSET_TYPE_INDIAN_STOCK, ASSET_TYPE_US_STOCK, ASSET_TYPE_CRYPTO, h1, h2, h3]

/-- The purchase sum of a class with no asset in the list is 0. -/
theorem specPurchaseTotal_of_no_member (T : String) (A : List Asset)
    (hT : ∀ a ∈ A, a.asset_type ≠ T) : specPurchaseTotal T A = 0 := by
  have hnil : A.filter (fun a => decide (a.asset_type = T)) = [] := by
    rw [List.filter_eq_nil_iff]
    intro a ha
    simpa using hT a ha
  simp [specPurchaseTotal, hnil]

/-! ## Valuation totals -/

/-- For an asset list none of whose symbols reads an inherited member of the
price map, the current total stored for each class is the sum, over the assets
of that class, of price × quantity, the price being the non-zero live price of
the symbol when there is one and the purchase price otherwise. -/
theorem recomputeTotals_current_of_own_symbols (s : AppState)
    (hown : ∀ a ∈ s.assets, getMember s.livePrices a.symbol ≠ Member.inherited) :
    (recomputeTotals s).indianStocksCurrentTotal
        = some (specCurrentTotal "Indian Stock" s.assets s.livePrices)
      ∧ (recomputeTotals s).usStocksCurrentTotal
        = some (specCurrentTotal "US Stock" s.assets s.livePrices)
      ∧ (recomputeTotals s).cryptoCurrentTotal
        = some (specCurrentTotal "Crypto" s.assets s.livePrices) := by
  simp [recomputeTotals, runLoop_eq, classCurrentSum_of_own_symbols _ _ _ hown,
    ASSET_TYPE_INDIAN_STOCK, ASSET_TYPE_US_STOCK, ASSET_TYPE_CRYPTO]

/-- C1, evaluated on the code: for one Indian Stock asset of symbol
'constructor' (2500 × 10) and the empty price map, which has no entry for that
symbol, `livePrices[asset.symbol]` is the inherited member, the current total
stored for the class is `NaN`, and the sum the claim names is 25000. -/
theorem recomputeTotals_current_nan_on_inherited_symbol :
    List.lookup constructorAsset.symbol ([] : PriceMap) = none
      ∧ getMember [] constructorAsset.symbol = Member.inherited
      ∧ (recomputeTotals (staleState [constructorAsset] [] 0)).indianStocksCurrentTotal = none
      ∧ specCurrentTotal "Indian Stock" [constructorAsset] [] = 25000
      ∧ (recomputeTotals (staleState [constructorAsset] [] 0)).indianStocksCurrentTotal
        ≠ some (specCurrentTotal "Indian Stock" [constructorAsset] []) := by
  have hm : getMember [] constructorAsset.symbol = Member.inherited := by decide
  have hm' : getMember [] "constructor" = Member.inherited := by decide
  have hnan : (recomputeTotals (staleState [constructorAsset] [] 0)).indianStocksCurrentTotal
      = none := by
    simp [recomputeTotals, runLoop, accumulate, staleState, currentValue, hm', jsAdd,
      Accumulators.zero, constructorAsset, ASSET_TYPE_INDIAN_STOCK]
  refine ⟨rfl, hm, hnan, ?_, ?_⟩
  · simp [specCurrentTotal, specPrice, constructorAsset]
    norm_num
  · rw [hnan]
    exact fun h => Option.noConfusion h

/-- C2: for each of the three classes, the purchase total stored by the totals
effect is the sum of purchase_price × quantity over exactly the assets of that
class, and it is 0 when the list has no asset of that class. -/
theorem recomputeTotals_purchase_eq_class_sum (s : AppState) :
    ((recomputeTotals s).indianStocksTotal = specPurchaseTotal "Indian Stock" s.assets
      ∧ (recomputeTotals s).usStocksTotal = specPurchaseTotal "US Stock" s.assets
      ∧ (recomputeTotals s).cryptoTotal = specPurchaseTotal "Crypto" s.assets)
    ∧ ((∀ a ∈ s.assets, a.asset_type ≠ "Indian Stock") →
        (recomputeTotals s).indianStocksTotal = 0)
    ∧ ((∀ a ∈ s.assets, a.asset_type ≠ "US Stock") →
        (recomputeTotals s).usStocksTotal = 0)
    ∧ ((∀ a ∈ s.assets, a.asset_type ≠ "Crypto") →
        (recomputeTotals s).cryptoTotal = 0) := by
  have hsum : (recomputeTotals s).indianStocksTotal
        = specPurchaseTotal "Indian Stock" s.assets
      ∧ (recomputeTotals s).usStocksTotal = specPurchaseTotal "US Stock" s.assets
      ∧ (recomputeTotals s).cryptoTotal = specPurchaseTotal "Crypto" s.assets := by
    simp [recomputeTotals, runLoop_eq, ASSET_TYPE_INDIAN_STOCK, ASSET_TYPE_US_STOCK,
      ASSET_TYPE_CRYPTO]
  refine ⟨hsum, fun h => ?_, fun h => ?_, fun h => ?_⟩
  · rw [hsum.1]; exact specPurchaseTotal_of_no_member _ _ h
  · rw [hsum.2.1]; exact specPurchaseTotal_of_no_member _ _ h
  · rw [hsum.2.2]; exact specPurchaseTotal_of_no_member _ _ h

/-- Witness of C2: with one Indian Stock asset (2500 × 10) the Indian total is
25000 and the two other class purchase totals are 0. -/
theorem recomputeTotals_purchase_eq_class_sum_witness :
    (recomputeTotals (staleState [relianceAsset] [] 7)).indianStocksTotal
        = specPurchaseTotal "Indian Stock" [relianceAsset]
      ∧ (recomputeTotals (staleState [relianceAsset] [] 7)).usStocksTotal = 0
      ∧ (recomputeTotals (staleState [relianceAsset] [] 7)).cryptoTotal = 0 :=
  ⟨(recomputeTotals_purchase_eq_class_sum (staleState [relianceAsset] [] 7)).1.1,
   (recomputeTotals_purchase_eq_class_sum (staleState [relianceAsset] [] 7)).2.2.1
     (by intro a ha; simp [staleState] at ha; subst ha; decide),
   (recomputeTotals_purchase_eq_class_sum (staleState [relianceAsset] [] 7)).2.2.2
     (by intro a ha; simp [staleState] at ha; subst ha; decide)⟩

/-- When no symbol of the list reads an inherited member and every symbol has
no entry in the price map, or an entry equal to 0, each asset's current
contribution is its purchase contribution, each class current total equals the
class purchase total and the grand current total equals the grand purchase
total. -/
theorem recomputeTotals_unpriced_of_own_symbols (s : AppState)
    (hown : ∀ a ∈ s.assets, getMember s.livePrices a.symbol ≠ Member.inherited)
    (h : ∀ a ∈ s.assets,
      s.livePrices.lookup a.symbol = none ∨ s.livePrices.lookup a.symbol = some 0) :
    (∀ a ∈ s.assets, currentValue s.livePrices a = some (purchaseValue a))
      ∧ (recomputeTotals s).indianStocksCurrentTotal
          = some (recomputeTotals s).indianStocksTotal
      ∧ (recomputeTotals s).usStocksCurrentTotal = some (recomputeTotals s).usStocksTotal
      ∧ (recomputeTotals s).cryptoCurrentTotal = some (recomputeTotals s).cryptoTotal
      ∧ (recomputeTotals s).grandCurrentTotal = some (recomputeTotals s).grandTotal := by
  have hval : ∀ a ∈ s.assets, currentValue s.livePrices a = some (purchaseValue a) :=
    fun a ha => currentValue_of_unpriced _ a (hown a ha) (h a ha)
  have hsum : ∀ T : String,
      classCurrentSum T s.assets s.livePrices = some (specPurchaseTotal T s.assets) := by
    intro T
    have hgen : ∀ A : List Asset, (∀ a ∈ A, currentValue s.livePrices a = some (purchaseValue a)) →
        classCurrentSum T A s.livePrices = some (specPurchaseTotal T A) := by
      intro A
      induction A with
      | nil => intro _; simp [classCurrentSum, specPurchaseTotal, jsSum]
      | cons a A ih =>
        intro hA
        rw [classCurrentSum_cons, specPurchaseTotal_cons,
          ih (fun b hb => hA b (List.mem_cons_of_mem a hb)), hA a (List.mem_cons_self a A)]
        by_cases hT : a.asset_type = T <;> simp [hT, jsAdd, purchaseValue]
    exact hgen s.assets hval
  refine ⟨hval, ?_, ?_, ?_, ?_⟩ <;>
    simp [recomputeTotals, runLoop_eq, hsum, jsAdd]

/-- C3, evaluated on the code: for one Indian Stock asset of symbol
'constructor' (2500 × 10) and the empty price map, the symbol has no entry in
the map, the class purchase total is 25000, and the class and grand current
totals are `NaN`, not 25000. -/
theorem recomputeTotals_unpriced_nan_on_inherited_symbol :
    (∀ a ∈ (staleState [constructorAsset] [] 0).assets,
        (staleState [constructorAsset] [] 0).livePrices.lookup a.symbol = none
          ∨ (staleState [constructorAsset] [] 0).livePrices.lookup a.symbol = some 0)
      ∧ currentValue [] constructorAsset = none
      ∧ purchaseValue constructorAsset = 25000
      ∧ (recomputeTotals (staleState [constructorAsset] [] 0)).indianStocksTotal = 25000
      ∧ (recomputeTotals (staleState [constructorAsset] [] 0)).indianStocksCurrentTotal = none
      ∧ (recomputeTotals (staleState [constructorAsset] [] 0)).grandTotal = 25000
      ∧ (recomputeTotals (staleState [constructorAsset] [] 0)).grandCurrentTotal = none := by
  have hm : getMember [] constructorAsset.symbol = Member.inherited := by decide
  have hm' : getMember [] "constructor" = Member.inherited := by decide
  have hv : currentValue [] constructorAsset = none := currentValue_of_inherited _ _ hm
  refine ⟨?_, hv, ?_, ?_, ?_, ?_, ?_⟩
  · intro a _
    exact Or.inl rfl
  · simp [purchaseValue, constructorAsset]
    norm_num
  · simp [recomputeTotals, runLoop, accumulate, staleState, purchaseValue,
      Accumulators.zero, constructorAsset, ASSET_TYPE_INDIAN_STOCK]
    norm_num
  · simp [recomputeTotals, runLoop, accumulate, staleState, currentValue, hm', jsAdd,
      Accumulators.zero, constructorAsset, ASSET_TYPE_INDIAN_STOCK]
  · simp [recomputeTotals, runLoop, accumulate, staleState, purchaseValue,
      Accumulators.zero, constructorAsset, ASSET_TYPE_INDIAN_STOCK]
    norm_num
  · simp [recomputeTotals, runLoop, accumulate, staleState, currentValue, hm', jsAdd,
      Accumulators.zero, constructorAsset, ASSET_TYPE_INDIAN_STOCK]

/-- C4: the grand current total is the sum, in the arithmetic of the code, of
the three class current totals and the grand purchase total is the sum of the
three class purchase totals. -/
theorem recomputeTotals_grand_eq_sum (s : AppState) :
    (recomputeTotals s).grandCurrentTotal
        = jsAdd
            (jsAdd (recomputeTotals s).indianStocksCurrentTotal
              (recomputeTotals s).usStocksCurrentTotal)
            (recomputeTotals s).cryptoCurrentTotal
      ∧ (recomputeTotals s).grandTotal
        = (recomputeTotals s).indianStocksTotal + (recomputeTotals s).usStocksTotal
          + (recomputeTotals s).cryptoTotal :=
  ⟨rfl, rfl⟩

/-- C5: inserting, at any position of the asset list, an asset whose type is
none of the three classes leaves the eight totals as they are. -/
theorem recomputeTotals_insert_unrecognised (s : AppState) (before after : List Asset)
    (x : Asset) (h1 : x.asset_type ≠ "Indian Stock") (h2 : x.asset_type ≠ "US Stock")
    (h3 : x.asset_type ≠ "Crypto") :
    (recomputeTotals { s with assets := before ++ x :: after }).totals
      = (recomputeTotals { s with assets := before ++ after }).totals := by
  have hloop : runLoop s.livePrices (before ++ x :: after)
      = runLoop s.livePrices (before ++ after) := by
    unfold runLoop
    rw [List.foldl_append, List.foldl_cons, accumulate_of_unrecognised _ _ x h1 h2 h3,
      List.foldl_append]
  simp [recomputeTotals, AppState.totals, hloop]

/-- Witness of C5: a Mutual Fund asset put before, or after, the RELIANCE.NS
asset leaves the eight totals of the list with RELIANCE.NS alone. -/
theorem recomputeTotals_insert_unrecognised_witness :
    (recomputeTotals
        { staleState [] [] 7 with
          assets := [] ++ { relianceAsset with asset_type := "Mutual Fund" }
            :: [relianceAsset] }).totals
      = (recomputeTotals { staleState [] [] 7 with assets := [] ++ [relianceAsset] }).totals
    ∧ (recomputeTotals
        { staleState [] [] 7 with
          assets := [relianceAsset] ++ { relianceAsset with asset_type := "Mutual Fund" }
            :: [] }).totals
      = (recomputeTotals { staleState [] [] 7 with assets := [relianceAsset] ++ [] }).totals :=
  ⟨recomputeTotals_insert_unrecognised (staleState [] [] 7) [] [relianceAsset]
      { relianceAsset with asset_type := "Mutual Fund" } (by decide) (by decide) (by decide),
   recomputeTotals_insert_unrecognised (staleState [] [] 7) [relianceAsset] []
      { relianceAsset with asset_type := "Mutual Fund" } (by decide) (by decide) (by decide)⟩

/-- C6: the totals after the effect are determined by the asset list and the
price map alone, whatever totals were held before; running the effect twice
gives what running it once gives; the effect leaves the asset list and the
price map as they are. -/
theorem recomputeTotals_pure (s t : AppState) (hA : s.assets = t.assets)
    (hP : s.livePrices = t.livePrices) :
    (recomputeTotals s).totals = (recomputeTotals t).totals
      ∧ recomputeTotals (recomputeTotals s) = recomputeTotals s
      ∧ (recomputeTotals s).assets = s.assets
      ∧ (recomputeTotals s).livePrices = s.livePrices := by
  refine ⟨?_, rfl, rfl, rfl⟩
  simp [recomputeTotals, AppState.totals, hA, hP]

/-- Witness of C6: two states holding the same Crypto asset and price map but
different stale totals get the same totals. -/
theorem recomputeTotals_pure_witness :
    (recomputeTotals (staleState [bitcoinAsset] [("BTC", 2700000)] 7)).totals
        = (recomputeTotals (staleState [bitcoinAsset] [("BTC", 2700000)] 99)).totals
      ∧ recomputeTotals (recomputeTotals (staleState [bitcoinAsset] [("BTC", 2700000)] 7))
        = recomputeTotals (staleState [bitcoinAsset] [("BTC", 2700000)] 7) :=
  ⟨(recomputeTotals_pure (staleState [bitcoinAsset] [("BTC", 2700000)] 7)
      (staleState [bitcoinAsset] [("BTC", 2700000)] 99) rfl rfl).1,
   (recomputeTotals_pure (staleState [bitcoinAsset] [("BTC", 2700000)] 7)
      (staleState [bitcoinAsset] [("BTC", 2700000)] 99) rfl rfl).2.1⟩

/-! ## Percent change -/

/-- C7: with a purchase value of 0 the percent change of the summary box is
exactly 0 for every current value, although the quotient by the purchase value
has no value there: the division is not reached. -/
theorem percentChange_of_zero_purchase (c : ℚ) :
    percentChange 0 c = some 0 ∧ jsDiv (c - 0) 0 = none := by
  simp [percentChange, jsDiv]

/-- Counterexample to C8 as stated: the purchase value -100 is not 0, yet with
the current value -50 the summary box computes 0 and not
(current − purchase) / purchase × 100 = -50. -/
theorem percentChange_negative_purchase :
    (-100 : ℚ) ≠ 0 ∧ percentChange (-100) (-50) = some 0
      ∧ percentChange (-100) (-50) ≠ some (((-50 : ℚ) - (-100)) / (-100) * 100) := by
  refine ⟨by norm_num, ?_, ?_⟩
  · simp [percentChange]
  · simp [percentChange]
    norm_num

/-- C8, amended: for every purchase value greater than 0 and every current
value the percent change of the summary box is
(current − purchase) / purchase × 100. -/
theorem percentChange_of_pos_purchase (p c : ℚ) (hp : 0 < p) :
    percentChange p c = some ((c - p) / p * 100) := by
  simp [percentChange, jsDiv, hp, ne_of_gt hp]

/-- Witness of C8, amended: purchase 125000 and current 135000 give 8. -/
theorem percentChange_of_pos_purchase_witness :
    (0 : ℚ) < 125000 ∧ percentChange 125000 135000 = some 8 :=
  ⟨by norm_num, (percentChange_of_pos_purchase 125000 135000 (by norm_num)).trans
    (by norm_num)⟩

/-! ## The "% Return" box of PortfolioCharts -/

/-- For a loaded list whose purchase total is not positive the "% Return" box
takes the branch of the demo figure. -/
theorem percentReturnText_of_nonpos_purchase (p : ChartsProps)
    (h : totalPurchaseValue p ≤ 0) : percentReturnText p = some "+8.33%" := by
  unfold percentReturnText
  rw [if_neg]
  intro hc
  exact absurd hc.2 (not_lt.mpr h)

/-- C9, evaluated on the code: for a non-empty asset list whose class purchase
totals sum to 0 the "% Return" box shows the demo figure "+8.33%" and not
"0.00%"; first for the props of the render between the arrival of the list and
the totals effect, then for the totals computed for an asset bought at price 0
and priced live at 100. -/
theorem percentReturnText_shows_demo_figure :
    (chartsProps (staleState [bitcoinAsset] [] 0)).assets ≠ []
      ∧ totalPurchaseValue (chartsProps (staleState [bitcoinAsset] [] 0)) = 0
      ∧ percentReturnText (chartsProps (staleState [bitcoinAsset] [] 0)) = some "+8.33%"
      ∧ (chartsProps (recomputeTotals (staleState [giftedAsset] [("BTC", 100)] 0))).assets
          ≠ []
      ∧ totalPurchaseValue
          (chartsProps (recomputeTotals (staleState [giftedAsset] [("BTC", 100)] 0))) = 0
      ∧ totalPortfolioValue
          (chartsProps (recomputeTotals (staleState [giftedAsset] [("BTC", 100)] 0))) = 200
      ∧ percentReturnText
          (chartsProps (recomputeTotals (staleState [giftedAsset] [("BTC", 100)] 0)))
          = some "+8.33%"
      ∧ some "+8.33%" ≠ some "0.00%" := by
  have e1 : totalPurchaseValue (chartsProps (staleState [bitcoinAsset] [] 0)) = 0 := by
    simp [totalPurchaseValue, chartsProps, staleState, orZero]
  have e2 : totalPurchaseValue
      (chartsProps (recomputeTotals (staleState [giftedAsset] [("BTC", 100)] 0))) = 0 := by
    simp [totalPurchaseValue, chartsProps, recomputeTotals, runLoop, accumulate, staleState,
      giftedAsset, purchaseValue, orZero, Accumulators.zero, ASSET_TYPE_INDIAN_STOCK,
      ASSET_TYPE_US_STOCK, ASSET_TYPE_CRYPTO]
  have e3 : totalPortfolioValue
      (chartsProps (recomputeTotals (staleState [giftedAsset] [("BTC", 100)] 0))) = 200 := by
    have hm : getMember [("BTC", 100)] "BTC" = Member.price 100 := by decide
    simp [totalPortfolioValue, chartsProps, recomputeTotals, runLoop, accumulate, staleState,
      giftedAsset, currentValue, purchaseValue, orZero, orZeroOfNumber, jsAdd, hm,
      Accumulators.zero, ASSET_TYPE_INDIAN_STOCK, ASSET_TYPE_US_STOCK, ASSET_TYPE_CRYPTO]
    norm_num
  refine ⟨?_, e1, ?_, ?_, e2, e3, ?_, by decide⟩
  · simp [chartsProps, staleState]
  · simp [percentReturnText, e1]
  · simp [chartsProps, recomputeTotals, staleState]
  · simp [percentReturnText, e2]

/-! ## Bulk delete -/

/-- The assets endpoint never ends in a slash. -/
theorem endsWith_assetsEndpoint (API_BASE_URL : String) :
    endsWith (assetsEndpoint API_BASE_URL) "/" = false := by
  unfold endsWith assetsEndpoint
  rw [Bool.eq_false_iff]
  intro h
  rw [List.isSuffixOf_iff_suffix] at h
  obtain ⟨t, ht⟩ := h
  have hlast := congrArg List.getLast? ht
  simp at hlast

/-- The bulk-delete request, written out. -/
theorem bulkDeleteRequest_eq (API_BASE_URL : String) (ids : List String) :
    bulkDeleteRequest API_BASE_URL ids =
      { url := API_BASE_URL ++ "/assets"
        method := Method.DELETE
        headers := [("Content-Type", "application/json"), ("Accept", "application/json")]
        body := some (Body.ids ids)
        credentials := some "omit" } := by
  have h := endsWith_assetsEndpoint API_BASE_URL
  simp [bulkDeleteRequest, h]
  rfl

/-- C10: `handleBulkDeleteAssets` issues a request exactly when it is given a
non-empty id list. For `null`, `undefined` or an empty list it issues none and
returns the state it was given. For a non-empty list, whatever the service
answers, the first request it issues is a DELETE to the assets endpoint, which
does not end in a slash, with body `ids` holding the given ids in the given
order, and that is the only DELETE it issues. -/
theorem handleBulkDeleteAssets_request_iff (API_BASE_URL : String) (s : AppState)
    (assetIds : Option (List String)) (res : FetchResult Unit) :
    ((handleBulkDeleteAssets API_BASE_URL s assetIds res).2 ≠ []
        ↔ ∃ ids, assetIds = some ids ∧ ids ≠ [])
      ∧ ((assetIds = none ∨ assetIds = some []) →
          handleBulkDeleteAssets API_BASE_URL s assetIds res = (s, []))
      ∧ (∀ ids, assetIds = some ids → ids ≠ [] →
          (handleBulkDeleteAssets API_BASE_URL s assetIds res).2.head?
              = some
                { url := API_BASE_URL ++ "/assets"
                  method := Method.DELETE
                  headers :=
                    [("Content-Type", "application/json"), ("Accept", "application/json")]
                  body := some (Body.ids ids)
                  credentials := some "omit" }
            ∧ (handleBulkDeleteAssets API_BASE_URL s assetIds res).2.filter
                (fun r => decide (r.method = Method.DELETE))
              = [{ url := API_BASE_URL ++ "/assets"
                   method := Method.DELETE
                   headers :=
                     [("Content-Type", "application/json"), ("Accept", "application/json")]
                   body := some (Body.ids ids)
                   credentials := some "omit" }]
            ∧ endsWith (API_BASE_URL ++ "/assets") "/" = false) := by
  have hslash : endsWith (API_BASE_URL ++ "/assets") "/" = false :=
    endsWith_assetsEndpoint API_BASE_URL
  cases assetIds with
  | none => simp [handleBulkDeleteAssets]
  | some ids =>
    cases ids with
    | nil => simp [handleBulkDeleteAssets]
    | cons i rest =>
      have hreq := bulkDeleteRequest_eq API_BASE_URL (i :: rest)
      refine ⟨?_, ?_, ?_⟩
      · rcases res with m | ⟨st, _ | t | msg⟩ | (m | u) <;>
          simp [handleBulkDeleteAssets, ErrorData.message]
      · intro h
        simp at h
      · intro ids hids _
        cases hids
        rcases res with m | ⟨st, _ | t | msg⟩ | (m | u) <;>
          simp [handleBulkDeleteAssets, hreq, fetchAssetsStart, hslash, ErrorData.message]

/-- Witness of C10: the ids '1', '2' against a service that accepts them give
one DELETE to the assets endpoint with exactly those ids; no id list gives no
request. -/
theorem handleBulkDeleteAssets_request_iff_witness :
    ((handleBulkDeleteAssets "http://localhost:5001" AppState.initial (some ["1", "2"])
        (FetchResult.ok (Except.ok ()))).2.filter
          (fun r => decide (r.method = Method.DELETE))
        = [{ url := "http://localhost:5001" ++ "/assets"
             method := Method.DELETE
             headers :=
               [("Content-Type", "application/json"), ("Accept", "application/json")]
             body := some (Body.ids ["1", "2"])
             credentials := some "omit" }])
      ∧ handleBulkDeleteAssets "http://localhost:5001" AppState.initial none
          (FetchResult.ok (Except.ok ())) = (AppState.initial, []) :=
  ⟨((handleBulkDeleteAssets_request_iff "http://localhost:5001" AppState.initial
      (some ["1", "2"]) (FetchResult.ok (Except.ok ()))).2.2 ["1", "2"] rfl
      (by simp)).2.1,
   (handleBulkDeleteAssets_request_iff "http://localhost:5001" AppState.initial none
      (FetchResult.ok (Except.ok ()))).2.1 (Or.inl rfl)⟩

/-! ## Loading the asset list -/

/-- C11: whenever the list request of `fetchAssets` fails (a response that is
not ok, a rejected fetch, or a body that does not parse), afterwards the asset
list is empty, the error is the load-failure message, loading is false, the
price map is the one held before, and the only request issued is the list
request: no price request. -/
theorem fetchAssets_of_failure (API_BASE_URL : String) (now : Nat) (s : AppState)
    (list : FetchResult (List Asset)) (prices : FetchResult PriceMap)
    (hfail : ∀ data, list ≠ FetchResult.ok (Except.ok data)) :
    (fetchAssets API_BASE_URL now s list prices).1.assets = []
      ∧ (fetchAssets API_BASE_URL now s list prices).1.error
          = some "Failed to load assets. Backend might be down or CORS issue."
      ∧ (fetchAssets API_BASE_URL now s list prices).1.loading = false
      ∧ (fetchAssets API_BASE_URL now s list prices).1.livePrices = s.livePrices
      ∧ (fetchAssets API_BASE_URL now s list prices).2
          = [{ url := API_BASE_URL ++ "/assets", method := Method.GET, headers := [],
               body := none, credentials := none }] := by
  rcases list with m | ⟨st, e⟩ | (m | data)
  · simp [fetchAssets, fetchAssetsStart, fetchAssetsSettle, assetsEndpoint]
  · simp [fetchAssets, fetchAssetsStart, fetchAssetsSettle, assetsEndpoint]
  · simp [fetchAssets, fetchAssetsStart, fetchAssetsSettle, assetsEndpoint]
  · exact absurd rfl (hfail data)

/-- Witness of C11: an HTTP 500 on the list request, from a state holding an
asset and a price. -/
theorem fetchAssets_of_failure_witness :
    (fetchAssets "http://localhost:5001" 0 (staleState [bitcoinAsset] [("BTC", 2700000)] 7)
        (FetchResult.notOk 500 none) (FetchResult.rejected "unused")).1.assets = []
      ∧ (fetchAssets "http://localhost:5001" 0
          (staleState [bitcoinAsset] [("BTC", 2700000)] 7)
          (FetchResult.notOk 500 none) (FetchResult.rejected "unused")).1.livePrices
          = [("BTC", 2700000)] :=
  ⟨(fetchAssets_of_failure "http://localhost:5001" 0
      (staleState [bitcoinAsset] [("BTC", 2700000)] 7) (FetchResult.notOk 500 none)
      (FetchResult.rejected "unused") (by intro data h; cases h)).1,
   (fetchAssets_of_failure "http://localhost:5001" 0
      (staleState [bitcoinAsset] [("BTC", 2700000)] 7) (FetchResult.notOk 500 none)
      (FetchResult.rejected "unused") (by intro data h; cases h)).2.2.2.1⟩

/-- C12: when the list request of `fetchAssets` succeeds with a non-empty list
`D`, the asset list becomes `D`, the error is cleared and, after the list
request, exactly one price request is issued, with body `assets: D`; when `D`
is empty the asset list becomes empty and only the list request is issued. -/
theorem fetchAssets_of_success (API_BASE_URL : String) (now : Nat) (s : AppState)
    (D : List Asset) (prices : FetchResult PriceMap) :
    (fetchAssets API_BASE_URL now s (FetchResult.ok (Except.ok D)) prices).1.assets = D
      ∧ (fetchAssets API_BASE_URL now s (FetchResult.ok (Except.ok D)) prices).1.error = none
      ∧ (D ≠ [] →
          (fetchAssets API_BASE_URL now s (FetchResult.ok (Except.ok D)) prices).2
            = [{ url := API_BASE_URL ++ "/assets", method := Method.GET, headers := [],
                 body := none, credentials := none },
               { url := API_BASE_URL ++ "/api/prices", method := Method.POST,
                 headers := [("Content-Type", "application/json")],
                 body := some (Body.assets D), credentials := none }])
      ∧ (D = [] →
          (fetchAssets API_BASE_URL now s (FetchResult.ok (Except.ok D)) prices).2
            = [{ url := API_BASE_URL ++ "/assets", method := Method.GET, headers := [],
                 body := none, credentials := none }]) := by
  cases D with
  | nil =>
    simp [fetchAssets, fetchAssetsStart, fetchAssetsSettle, fetchLivePrices, assetsEndpoint]
  | cons a D =>
    rcases prices with m | ⟨st, e⟩ | (m | data) <;>
      simp [fetchAssets, fetchAssetsStart, fetchAssetsSettle, fetchLivePrices,
        assetsEndpoint, pricesEndpoint]

/-- Witness of C12: from a state holding the RELIANCE.NS asset, a list response
holding the BTC asset gives a price request for the BTC asset. -/
theorem fetchAssets_of_success_witness :
    (fetchAssets "http://localhost:5001" 0 (staleState [relianceAsset] [] 7)
        (FetchResult.ok (Except.ok [bitcoinAsset]))
        (FetchResult.ok (Except.ok [("BTC", 2700000)]))).2
      = [{ url := "http://localhost:5001" ++ "/assets", method := Method.GET, headers := [],
           body := none, credentials := none },
         { url := "http://localhost:5001" ++ "/api/prices", method := Method.POST,
           headers := [("Content-Type", "application/json")],
           body := some (Body.assets [bitcoinAsset]), credentials := none }] :=
  (fetchAssets_of_success "http://localhost:5001" 0 (staleState [relianceAsset] [] 7)
    [bitcoinAsset] (FetchResult.ok (Except.ok [("BTC", 2700000)]))).2.2.1 (by simp)

/-! ## Creating an asset -/

/-- A rejected submission: the three validation messages of `handleSubmit`. -/
theorem handleSubmit_cases (parseFloat : String → Option ℚ)
    (toUpperCase : String → String) (API_BASE_URL today : String) (f : FormState)
    (res : FetchResult Unit) :
    ((handleSubmit parseFloat toUpperCase API_BASE_URL today f res).requests = []
        ∧ (handleSubmit parseFloat toUpperCase API_BASE_URL today f res).onAssetAdded = false
        ∧ ((handleSubmit parseFloat toUpperCase API_BASE_URL today f res).form.error
              = some "All fields are required."
            ∨ (handleSubmit parseFloat toUpperCase API_BASE_URL today f res).form.error
              = some "Purchase price must be a positive number."
            ∨ (handleSubmit parseFloat toUpperCase API_BASE_URL today f res).form.error
              = some "Quantity must be a positive number."))
      ∨ (∃ date price qty, f.symbol ≠ "" ∧ f.assetType ≠ "" ∧ f.purchasePrice ≠ ""
          ∧ f.quantity ≠ "" ∧ f.purchaseDate = some date
          ∧ parseFloat f.purchasePrice = some price ∧ 0 < price
          ∧ parseFloat f.quantity = some qty ∧ 0 < qty
          ∧ (handleSubmit parseFloat toUpperCase API_BASE_URL today f res).requests
            = [{ url := assetsEndpoint API_BASE_URL
                 method := Method.POST
                 headers := [("Content-Type", "application/json")]
                 body := some
                   (Body.newAsset (toUpperCase f.symbol) f.assetType price qty date)
                 credentials := none }]) := by
  unfold handleSubmit
  by_cases h0 : f.symbol = "" ∨ f.assetType = "" ∨ f.purchasePrice = "" ∨ f.quantity = ""
  · left
    simp [h0]
  · have h0' := h0
    simp only [not_or] at h0'
    obtain ⟨h1, h2, h3, h4⟩ := h0'
    cases hd : f.purchaseDate with
    | none => left; simp [h0]
    | some date =>
      cases hp : parseFloat f.purchasePrice with
      | none => left; simp [h0]
      | some price =>
        by_cases hpp : price ≤ 0
        · left; simp [h0, hpp]
        · cases hq : parseFloat f.quantity with
          | none => left; simp [h0, hpp]
          | some qty =>
            by_cases hqq : qty ≤ 0
            · left; simp [h0, hpp, hqq]
            · right
              refine ⟨date, price, qty, h1, h2, h3, h4, rfl, rfl, lt_of_not_ge hpp, rfl,
                lt_of_not_ge hqq, ?_⟩
              rcases res with m | ⟨st, _ | t | msg⟩ | (m | u) <;>
                simp [h0, hpp, hqq, ErrorData.message]

/-- C13: `handleSubmit` issues no request and sets a validation message
whenever the symbol, the asset type, the purchase price, the quantity or the
purchase date is empty or missing, or the parsed purchase price is not a number
greater than 0, or the parsed quantity is not a number greater than 0; and
every request it issues is a POST whose body carries a purchase price greater
than 0 and a quantity greater than 0. -/
theorem handleSubmit_validation (parseFloat : String → Option ℚ)
    (toUpperCase : String → String) (API_BASE_URL today : String) (f : FormState)
    (res : FetchResult Unit) :
    ((f.symbol = "" ∨ f.assetType = "" ∨ f.purchasePrice = "" ∨ f.quantity = ""
          ∨ f.purchaseDate = none
          ∨ (¬ ∃ q, parseFloat f.purchasePrice = some q ∧ 0 < q)
          ∨ (¬ ∃ q, parseFloat f.quantity = some q ∧ 0 < q)) →
        (handleSubmit parseFloat toUpperCase API_BASE_URL today f res).requests = []
          ∧ ((handleSubmit parseFloat toUpperCase API_BASE_URL today f res).form.error
                = some "All fields are required."
              ∨ (handleSubmit parseFloat toUpperCase API_BASE_URL today f res).form.error
                = some "Purchase price must be a positive number."
              ∨ (handleSubmit parseFloat toUpperCase API_BASE_URL today f res).form.error
                = some "Quantity must be a positive number."))
      ∧ (∀ r ∈ (handleSubmit parseFloat toUpperCase API_BASE_URL today f res).requests,
          ∃ symbol asset_type price qty date,
            r.method = Method.POST
              ∧ r.body = some (Body.newAsset symbol asset_type price qty date)
              ∧ 0 < price ∧ 0 < qty) := by
  rcases handleSubmit_cases parseFloat toUpperCase API_BASE_URL today f res with
    ⟨hreq, _, herr⟩ | ⟨date, price, qty, h1, h2, h3, h4, hd, hp, hpp, hq, hqq, hreq⟩
  · refine ⟨fun _ => ⟨hreq, herr⟩, ?_⟩
    intro r hr
    rw [hreq] at hr
    cases hr
  · refine ⟨?_, ?_⟩
    · intro h
      exfalso
      rcases h with h | h | h | h | h | h | h
      · exact h1 h
      · exact h2 h
      · exact h3 h
      · exact h4 h
      · rw [hd] at h; cases h
      · exact h ⟨price, hp, hpp⟩
      · exact h ⟨qty, hq, hqq⟩
    · intro r hr
      rw [hreq] at hr
      rw [List.mem_singleton] at hr
      subst hr
      exact ⟨toUpperCase f.symbol, f.assetType, price, qty, date, rfl, rfl, hpp, hqq⟩

/-- Witness of C13: the filled form with its price changed to `0` is rejected
with no request, and the request of the filled form carries 2600 and 12. -/
theorem handleSubmit_validation_witness :
    (handleSubmit sampleParseFloat String.toUpper "http://localhost:5001" "2023-05-01"
        { sampleForm with purchasePrice := "0" } (FetchResult.ok (Except.ok ()))).requests
        = []
      ∧ ∀ r ∈ (handleSubmit sampleParseFloat String.toUpper "http://localhost:5001"
            "2023-05-01" sampleForm (FetchResult.ok (Except.ok ()))).requests,
          ∃ symbol asset_type price qty date,
            r.method = Method.POST
              ∧ r.body = some (Body.newAsset symbol asset_type price qty date)
              ∧ 0 < price ∧ 0 < qty :=
  ⟨((handleSubmit_validation sampleParseFloat String.toUpper "http://localhost:5001"
      "2023-05-01" { sampleForm with purchasePrice := "0" }
      (FetchResult.ok (Except.ok ()))).1
      (Or.inr (Or.inr (Or.inr (Or.inr (Or.inr (Or.inl (by
        rintro ⟨q, hq, hpos⟩
        have h0 : sampleParseFloat "0" = some 0 := by decide
        simp only [sampleForm] at hq
        rw [h0] at hq
        cases hq
        exact lt_irrefl _ hpos)))))))).1,
   (handleSubmit_validation sampleParseFloat String.toUpper "http://localhost:5001"
      "2023-05-01" sampleForm (FetchResult.ok (Except.ok ()))).2⟩

/-! ## Saving an edited row -/

/-- C14, evaluated on the code: after -5 is typed into the purchase price input
of the RELIANCE.NS row, the buffer holds the number -5, pressing "save asset"
calls `onUpdateAsset` with that buffer, and `handleUpdateAsset` sends it in a
PUT: a purchase price that is not greater than 0 reaches the store. -/
theorem saveAssetOnClick_negative_price_reaches_store :
    negativePriceEdit.editedAssetData
        = { id := some "1", symbol := some "RELIANCE.NS", asset_type := some "Indian Stock",
            purchase_price := NumberField.number (-5), quantity := NumberField.number 10,
            purchase_date := some "2023-01-15" }
      ∧ (saveAssetOnClick negativePriceEdit true).2
        = [(some "1", negativePriceEdit.editedAssetData)]
      ∧ (handleUpdateAsset "http://localhost:5001" (staleState [relianceAsset] [] 0) "1"
          negativePriceEdit.editedAssetData
          (FetchResult.ok (Except.ok { relianceAsset with purchase_price := -5 }))).2.1
        = [{ url := "http://localhost:5001/assets/1"
             method := Method.PUT
             headers := [("Content-Type", "application/json")]
             body := some (Body.updatedData
               { id := some "1", symbol := some "RELIANCE.NS",
                 asset_type := some "Indian Stock",
                 purchase_price := NumberField.number (-5),
                 quantity := NumberField.number 10,
                 purchase_date := some "2023-01-15" })
             credentials := none }] := by
  have hparse : sampleParseFloat "-5" = some (-5) := by decide
  have hbuf : negativePriceEdit.editedAssetData
      = { id := some "1", symbol := some "RELIANCE.NS", asset_type := some "Indian Stock",
          purchase_price := NumberField.number (-5), quantity := NumberField.number 10,
          purchase_date := some "2023-01-15" } := by
    simp [negativePriceEdit, handleEditDataChange, editAssetOnClick, processedNumber, hparse,
      EditedAssetData.ofAsset, relianceAsset]
  have hid : negativePriceEdit.editingAssetId = some "1" := by
    simp [negativePriceEdit, handleEditDataChange, editAssetOnClick, relianceAsset]
  refine ⟨hbuf, ?_, ?_⟩
  · simp [saveAssetOnClick, hbuf, hid, NumberField.truthy, textTruthy]
  · rw [hbuf]
    simp [handleUpdateAsset, assetsEndpoint]

/-- The part of C14 that holds: a purchase price or a quantity equal to 0 is
falsy, so the save handler makes no call. -/
theorem saveAssetOnClick_of_zero (st : AssetListState) (success : Bool)
    (h : st.editedAssetData.purchase_price = NumberField.number 0
      ∨ st.editedAssetData.quantity = NumberField.number 0) :
    saveAssetOnClick st success = (st, []) := by
  unfold saveAssetOnClick
  rcases h with h | h <;> simp [h, NumberField.truthy]

/-- C15: when the purchase price, the quantity or the purchase date of the edit
buffer is the empty string or absent, the save handler makes no call of
`onUpdateAsset` and leaves the state, with the row in edit mode and the buffer,
as it was. -/
theorem saveAssetOnClick_of_empty_field (st : AssetListState) (success : Bool)
    (h : st.editedAssetData.purchase_price = NumberField.absent
      ∨ st.editedAssetData.purchase_price = NumberField.empty
      ∨ st.editedAssetData.quantity = NumberField.absent
      ∨ st.editedAssetData.quantity = NumberField.empty
      ∨ st.editedAssetData.purchase_date = none
      ∨ st.editedAssetData.purchase_date = some "") :
    (saveAssetOnClick st success).2 = []
      ∧ (saveAssetOnClick st success).1 = st
      ∧ (saveAssetOnClick st success).1.editingAssetId = st.editingAssetId
      ∧ (saveAssetOnClick st success).1.editedAssetData = st.editedAssetData := by
  have key : saveAssetOnClick st success = (st, []) := by
    unfold saveAssetOnClick
    rcases h with h | h | h | h | h | h <;> simp [h, NumberField.truthy, textTruthy]
  simp [key]

/-- Witness of C15: after the quantity input of the RELIANCE.NS row is cleared,
saving makes no call and the row stays in edit mode. -/
theorem saveAssetOnClick_of_empty_field_witness :
    clearedQuantityEdit.editedAssetData.quantity = NumberField.empty
      ∧ (saveAssetOnClick clearedQuantityEdit true).2 = []
      ∧ (saveAssetOnClick clearedQuantityEdit true).1.editingAssetId = some "1" := by
  have hq : clearedQuantityEdit.editedAssetData.quantity = NumberField.empty := by
    simp [clearedQuantityEdit, handleEditDataChange, processedNumber]
  have w := saveAssetOnClick_of_empty_field clearedQuantityEdit true
    (Or.inr (Or.inr (Or.inr (Or.inl hq))))
  refine ⟨hq, w.1, ?_⟩
  rw [w.2.2.1]
  simp [clearedQuantityEdit, handleEditDataChange, editAssetOnClick, relianceAsset]

/-! ## Updating and deleting one asset -/

/-- C16: after `handleUpdateAsset(id, data)` succeeds with the asset `R` in the
response, the asset list has the length and order it had, with the entry at
each position replaced by `R` when its id is `id` and kept otherwise (nothing
of the old entry or of `data` is merged in); the error is cleared and the
handler returns true. -/
theorem handleUpdateAsset_of_success (API_BASE_URL : String) (s : AppState)
    (assetId : String) (updatedData : EditedAssetData) (R : Asset) :
    (handleUpdateAsset API_BASE_URL s assetId updatedData
        (FetchResult.ok (Except.ok R))).1.assets.length = s.assets.length
      ∧ (∀ i : Nat,
          (handleUpdateAsset API_BASE_URL s assetId updatedData
              (FetchResult.ok (Except.ok R))).1.assets[i]?
            = (s.assets[i]?).map (fun asset => if asset.id = assetId then R else asset))
      ∧ (handleUpdateAsset API_BASE_URL s assetId updatedData
          (FetchResult.ok (Except.ok R))).1.error = none
      ∧ (handleUpdateAsset API_BASE_URL s assetId updatedData
          (FetchResult.ok (Except.ok R))).2.2 = true := by
  simp [handleUpdateAsset]

/-- Deleting by id from a list with unique ids that holds the id removes
exactly one entry. -/
theorem length_filter_ne_id (l : List Asset) (assetId : String)
    (hnodup : (l.map (fun a => a.id)).Nodup) (hmem : assetId ∈ l.map (fun a => a.id)) :
    (l.filter (fun asset => decide (asset.id ≠ assetId))).length + 1 = l.length := by
  induction l with
  | nil => simp at hmem
  | cons a l ih =>
    rw [List.map_cons, List.nodup_cons] at hnodup
    obtain ⟨hnot, hnd⟩ := hnodup
    by_cases ha : a.id = assetId
    · have hall : ∀ b ∈ l, ¬ b.id = assetId := by
        intro b hb hbe
        apply hnot
        rw [ha, ← hbe]
        exact List.mem_map_of_mem (fun a => a.id) hb
      simp [List.filter_cons, ha]
      exact hall
    · have hmem' : assetId ∈ l.map (fun a => a.id) := by
        rw [List.map_cons, List.mem_cons] at hmem
        rcases hmem with h | h
        · exact absurd h.symm ha
        · exact h
      have hlen := ih hnd hmem'
      simp [List.filter_cons, ha]
      simpa using hlen

/-- C17: after `handleDeleteAsset(id)` succeeds, the asset list is the previous
list with the entries of that id filtered out: no remaining entry has the id,
the remaining entries are the other entries in their order, and when the ids of
the list are unique and `id` occurs among them the length decreases by one. -/
theorem handleDeleteAsset_of_success (API_BASE_URL : String) (s : AppState)
    (assetId : String) (body : Except String Unit) :
    (handleDeleteAsset API_BASE_URL s assetId (FetchResult.ok body)).1.assets
        = s.assets.filter (fun asset => decide (asset.id ≠ assetId))
      ∧ (∀ a ∈ (handleDeleteAsset API_BASE_URL s assetId (FetchResult.ok body)).1.assets,
          a.id ≠ assetId)
      ∧ (∀ a ∈ s.assets, a.id ≠ assetId →
          a ∈ (handleDeleteAsset API_BASE_URL s assetId (FetchResult.ok body)).1.assets)
      ∧ List.Sublist (handleDeleteAsset API_BASE_URL s assetId (FetchResult.ok body)).1.assets
          s.assets
      ∧ ((s.assets.map (fun a => a.id)).Nodup → assetId ∈ s.assets.map (fun a => a.id) →
          (handleDeleteAsset API_BASE_URL s assetId (FetchResult.ok body)).1.assets.length + 1
            = s.assets.length) := by
  have key : (handleDeleteAsset API_BASE_URL s assetId (FetchResult.ok body)).1.assets
      = s.assets.filter (fun asset => decide (asset.id ≠ assetId)) := rfl
  rw [key]
  refine ⟨rfl, ?_, ?_, List.filter_sublist _, length_filter_ne_id s.assets assetId⟩
  · intro a ha
    simpa using (List.mem_filter.mp ha).2
  · intro a ha hne
    exact List.mem_filter.mpr ⟨ha, by simpa using hne⟩

/-- Witness of C17: deleting id '1' from the list of the RELIANCE.NS asset (id
'1') and the BTC asset (id '3') leaves the BTC asset alone. -/
theorem handleDeleteAsset_of_success_witness :
    (handleDeleteAsset "http://localhost:5001" (staleState [relianceAsset, bitcoinAsset] [] 0)
        "1" (FetchResult.ok (Except.ok ()))).1.assets.length + 1 = 2 :=
  (handleDeleteAsset_of_success "http://localhost:5001"
    (staleState [relianceAsset, bitcoinAsset] [] 0) "1" (Except.ok ())).2.2.2.2
    (by simp [staleState, relianceAsset, bitcoinAsset])
    (by simp [staleState, relianceAsset, bitcoinAsset])

/-! ## Remote failures -/

/-- The status-derived message is never the empty text. -/
theorem httpError_ne_empty (status : Nat) : httpError status ≠ "" := by
  intro h
  have hlen := congrArg String.length h
  simp only [httpError, String.length_append] at hlen
  have h20 : "HTTP error! status: ".length = 20 := by decide
  rw [h20] at hlen
  have h0 : "".length = 0 := by decide
  omega

/-- The text `a || b` when `b` is the status-derived message, case by case. -/
theorem orElseText_message (message : Option String) (status : Nat) :
    orElseText message (httpError status)
      = (match message with
         | some m => if m = "" then httpError status else m
         | none => httpError status) := by
  cases message with
  | none => rfl
  | some m => by_cases hm : m = "" <;> simp [orElseText, hm]

/-- With the null-safe read `errorData?.message`, the text shown for a non-2xx
response is the failure text of the spec wording. -/
theorem orElseText_optionalMessage {α : Type} (status : Nat) (e : Option ErrorData)
    (t : String)
    (h : specFailureText (FetchResult.notOk status e : FetchResult α) = some t) :
    orElseText (optionalMessage e) (httpError status) = t := by
  rw [orElseText_message]
  rcases e with _ | u | _ | m
  · simpa [specFailureText, optionalMessage] using h
  · simpa [specFailureText, optionalMessage] using h
  · simpa [specFailureText, optionalMessage] using h
  · by_cases hm : m = "" <;> simpa [specFailureText, optionalMessage, hm] using h

/-- Whenever the remote call of delete-one, of bulk delete (on a non-empty id
list, and answered by anything but a non-2xx response with the body `null`) or
of update fails with failure text `t`, the handler leaves the asset list and
the price map as they were, changes nothing but the error, which it sets to its
own "Failed to ..." message containing `t`, and issues its one request and no
list request; update returns false. -/
theorem handlers_of_remote_failure_except_null (API_BASE_URL : String) (s : AppState)
    (assetId : String) (ids : List String) (updatedData : EditedAssetData)
    (resD resB : FetchResult Unit) (resU : FetchResult Asset) (tD tB tU : String)
    (hids : ids ≠ []) (hD : specFailureText resD = some tD)
    (hB : specFailureText resB = some tB) (hU : specFailureText resU = some tU)
    (hnull : ∀ status typeError,
      resB ≠ FetchResult.notOk status (some (ErrorData.null typeError))) :
    ((handleDeleteAsset API_BASE_URL s assetId resD).1
          = { s with error := some ("Failed to delete asset: " ++ tD) }
        ∧ (handleDeleteAsset API_BASE_URL s assetId resD).1.assets = s.assets
        ∧ (handleDeleteAsset API_BASE_URL s assetId resD).1.livePrices = s.livePrices
        ∧ (handleDeleteAsset API_BASE_URL s assetId resD).2.length = 1
        ∧ ∀ r ∈ (handleDeleteAsset API_BASE_URL s assetId resD).2, r.method ≠ Method.GET)
      ∧ ((handleBulkDeleteAssets API_BASE_URL s (some ids) resB).1
          = { s with
              error := some ("Failed to delete selected assets: " ++ tB
                ++ ". Please try again.") }
        ∧ (handleBulkDeleteAssets API_BASE_URL s (some ids) resB).1.assets = s.assets
        ∧ (handleBulkDeleteAssets API_BASE_URL s (some ids) resB).1.livePrices = s.livePrices
        ∧ (handleBulkDeleteAssets API_BASE_URL s (some ids) resB).2.length = 1
        ∧ ∀ r ∈ (handleBulkDeleteAssets API_BASE_URL s (some ids) resB).2,
            r.method ≠ Method.GET)
      ∧ ((handleUpdateAsset API_BASE_URL s assetId updatedData resU).1
          = { s with error := some ("Failed to update asset: " ++ tU) }
        ∧ (handleUpdateAsset API_BASE_URL s assetId updatedData resU).1.assets = s.assets
        ∧ (handleUpdateAsset API_BASE_URL s assetId updatedData resU).1.livePrices
            = s.livePrices
        ∧ (handleUpdateAsset API_BASE_URL s assetId updatedData resU).2.1.length = 1
        ∧ (∀ r ∈ (handleUpdateAsset API_BASE_URL s assetId updatedData resU).2.1,
            r.method ≠ Method.GET)
        ∧ (handleUpdateAsset API_BASE_URL s assetId updatedData resU).2.2 = false) := by
  refine ⟨?_, ?_, ?_⟩
  · rcases resD with m | ⟨st, e⟩ | d
    · simp only [specFailureText, Option.some.injEq] at hD
      subst hD
      simp [handleDeleteAsset]
    · have ht := orElseText_optionalMessage st e tD hD
      simp [handleDeleteAsset, ht]
    · simp [specFailureText] at hD
  · have hlen : ¬ ids.length = 0 := by
      intro h
      exact hids (List.length_eq_zero.mp h)
    rcases resB with m | ⟨st, e⟩ | d
    · simp only [specFailureText, Option.some.injEq] at hB
      subst hB
      simp [handleBulkDeleteAssets, hlen, bulkDeleteRequest]
    · rcases e with _ | u | _ | m
      · have ht : httpError st = tB := by simpa [specFailureText] using hB
        simp [handleBulkDeleteAssets, hlen, bulkDeleteRequest, ErrorData.message, orElseText,
          httpError_ne_empty, ht]
      · exact absurd rfl (hnull st u)
      · have ht : httpError st = tB := by simpa [specFailureText] using hB
        simp [handleBulkDeleteAssets, hlen, bulkDeleteRequest, ErrorData.message, orElseText,
          ht]
      · by_cases hm : m = ""
        · have ht : httpError st = tB := by simpa [specFailureText, hm] using hB
          simp [handleBulkDeleteAssets, hlen, bulkDeleteRequest, ErrorData.message,
            orElseText, hm, ht]
        · have ht : m = tB := by simpa [specFailureText, hm] using hB
          subst ht
          simp [handleBulkDeleteAssets, hlen, bulkDeleteRequest, ErrorData.message,
            orElseText, hm]
    · simp [specFailureText] at hB
  · rcases resU with m | ⟨st, e⟩ | d
    · simp only [specFailureText, Option.some.injEq] at hU
      subst hU
      simp [handleUpdateAsset]
    · have ht := orElseText_optionalMessage st e tU hU
      simp [handleUpdateAsset, ht]
    · simp [specFailureText] at hU

/-- C18, evaluated on the code: for an HTTP 500 whose body is the JSON value
`null`, the failure text of the spec wording is the status-derived message;
delete-one and update show it, while the bulk delete of '1' and '2' shows the
message of the TypeError thrown by `errorData.message`. In all three the asset
list is left as it was. -/
theorem handleBulkDeleteAssets_null_body_shows_type_error :
    specFailureText
        (FetchResult.notOk 500
          (some (ErrorData.null "Cannot read properties of null (reading 'message')"))
          : FetchResult Unit)
        = some "HTTP error! status: 500"
      ∧ (handleDeleteAsset "http://localhost:5001" (staleState [relianceAsset] [] 0) "1"
          (FetchResult.notOk 500
            (some (ErrorData.null
              "Cannot read properties of null (reading 'message')")))).1.error
        = some "Failed to delete asset: HTTP error! status: 500"
      ∧ (handleUpdateAsset "http://localhost:5001" (staleState [relianceAsset] [] 0) "1"
          (EditedAssetData.ofAsset relianceAsset)
          (FetchResult.notOk 500
            (some (ErrorData.null
              "Cannot read properties of null (reading 'message')")))).1.error
        = some "Failed to update asset: HTTP error! status: 500"
      ∧ (handleBulkDeleteAssets "http://localhost:5001" (staleState [relianceAsset] [] 0)
          (some ["1", "2"])
          (FetchResult.notOk 500
            (some (ErrorData.null
              "Cannot read properties of null (reading 'message')")))).1.error
        = some ("Failed to delete selected assets: "
            ++ "Cannot read properties of null (reading 'message')" ++ ". Please try again.")
      ∧ (handleBulkDeleteAssets "http://localhost:5001" (staleState [relianceAsset] [] 0)
          (some ["1", "2"])
          (FetchResult.notOk 500
            (some (ErrorData.null
              "Cannot read properties of null (reading 'message')")))).1.error
        ≠ some ("Failed to delete selected assets: " ++ "HTTP error! status: 500"
            ++ ". Please try again.")
      ∧ (handleBulkDeleteAssets "http://localhost:5001" (staleState [relianceAsset] [] 0)
          (some ["1", "2"])
          (FetchResult.notOk 500
            (some (ErrorData.null
              "Cannot read properties of null (reading 'message')")))).1.assets
        = [relianceAsset] := by
  have h500 : httpError 500 = "HTTP error! status: 500" := by decide
  refine ⟨?_, ?_, ?_, ?_, ?_, ?_⟩
  · simp [specFailureText, h500]
  · simp [handleDeleteAsset, optionalMessage, orElseText, h500]
  · simp [handleUpdateAsset, optionalMessage, orElseText, h500]
  · simp [handleBulkDeleteAssets, ErrorData.message]
  · simp [handleBulkDeleteAssets, ErrorData.message]
  · simp [handleBulkDeleteAssets, ErrorData.message, staleState]

/-! ## Errors of the create request -/

/-- Counterexample to C19 as stated: for an HTTP 500 whose body is not JSON the
form shows 'Failed to add asset', not 'HTTP error! status: 500'. -/
theorem handleSubmit_unparseable_error_body :
    (handleSubmit sampleParseFloat String.toUpper "http://localhost:5001" "2023-05-01"
        sampleForm (FetchResult.notOk 500 none)).form.error = some "Failed to add asset"
      ∧ (handleSubmit sampleParseFloat String.toUpper "http://localhost:5001" "2023-05-01"
          sampleForm (FetchResult.notOk 500 none)).form.error
        ≠ some ("HTTP error! status: " ++ toString 500) := by
  have hp : sampleParseFloat "2600" = some 2600 := by decide
  have hq : sampleParseFloat "12" = some 12 := by decide
  have e : (handleSubmit sampleParseFloat String.toUpper "http://localhost:5001"
      "2023-05-01" sampleForm (FetchResult.notOk 500 none)).form.error
      = some "Failed to add asset" := by
    have hp0 : ¬ (2600 : ℚ) ≤ 0 := by norm_num
    have hq0 : ¬ (12 : ℚ) ≤ 0 := by norm_num
    simp [handleSubmit, sampleForm, hp, hq, hp0, hq0, orElseText, ErrorData.message]
  refine ⟨e, ?_⟩
  rw [e]
  decide

/-- C19, amended: for every non-2xx response to the create request of a form
that passes validation, whose body is not the JSON value `null`, the error
shown is the message of the response body when the body is JSON with a
non-empty message, 'HTTP error! status: <status>' when the body is JSON without
a message or with an empty one, and 'Failed to add asset' when the body is not
JSON. -/
theorem handleSubmit_error_message (parseFloat : String → Option ℚ)
    (toUpperCase : String → String) (API_BASE_URL today : String) (f : FormState)
    (status : Nat) (errorData : Option ErrorData) (date : String) (price qty : ℚ)
    (h1 : f.symbol ≠ "") (h2 : f.assetType ≠ "") (h3 : f.purchasePrice ≠ "")
    (h4 : f.quantity ≠ "") (hd : f.purchaseDate = some date)
    (hp : parseFloat f.purchasePrice = some price) (hpp : 0 < price)
    (hq : parseFloat f.quantity = some qty) (hqq : 0 < qty)
    (hnull : ∀ typeError, errorData ≠ some (ErrorData.null typeError)) :
    (handleSubmit parseFloat toUpperCase API_BASE_URL today f
        (FetchResult.notOk status errorData)).form.error
      = some
        (match errorData with
         | some (ErrorData.object (some m)) => if m = "" then httpError status else m
         | some _ => httpError status
         | none => "Failed to add asset") := by
  have hp0 : ¬ price ≤ 0 := not_le.mpr hpp
  have hq0 : ¬ qty ≤ 0 := not_le.mpr hqq
  have hne := httpError_ne_empty status
  rcases errorData with _ | u | _ | m
  · simp [handleSubmit, h1, h2, h3, h4, hd, hp, hq, hp0, hq0, orElseText, ErrorData.message]
  · exact absurd rfl (hnull u)
  · simp [handleSubmit, h1, h2, h3, h4, hd, hp, hq, hp0, hq0, orElseText, hne,
      ErrorData.message]
  · by_cases hm : m = ""
    · simp [handleSubmit, h1, h2, h3, h4, hd, hp, hq, hp0, hq0, orElseText, hne, hm,
        ErrorData.message]
    · simp [handleSubmit, h1, h2, h3, h4, hd, hp, hq, hp0, hq0, orElseText, hne, hm,
        ErrorData.message]

/-- Witness of C19, amended: a 400 with the message 'Symbol already exists'
shows that message. -/
theorem handleSubmit_error_message_witness :
    (handleSubmit sampleParseFloat String.toUpper "http://localhost:5001" "2023-05-01"
        sampleForm
        (FetchResult.notOk 400
          (some (ErrorData.object (some "Symbol already exists"))))).form.error
      = some "Symbol already exists" :=
  (handleSubmit_error_message sampleParseFloat String.toUpper "http://localhost:5001"
    "2023-05-01" sampleForm 400 (some (ErrorData.object (some "Symbol already exists")))
    "2023-01-20" 2600 12 (by decide) (by decide) (by decide) (by decide) rfl (by decide)
    (by norm_num) (by decide) (by norm_num) (by intro t h; cases h)).trans (by simp)

/-- The case the amended C19 leaves out: for a non-2xx response whose body is
the JSON value `null`, reading `errorData.message` throws and the form shows the
message of that TypeError. -/
theorem handleSubmit_null_error_body (parseFloat : String → Option ℚ)
    (toUpperCase : String → String) (API_BASE_URL today : String) (f : FormState)
    (status : Nat) (typeError date : String) (price qty : ℚ)
    (h1 : f.symbol ≠ "") (h2 : f.assetType ≠ "") (h3 : f.purchasePrice ≠ "")
    (h4 : f.quantity ≠ "") (hd : f.purchaseDate = some date)
    (hp : parseFloat f.purchasePrice = some price) (hpp : 0 < price)
    (hq : parseFloat f.quantity = some qty) (hqq : 0 < qty) (ht : typeError ≠ "") :
    (handleSubmit parseFloat toUpperCase API_BASE_URL today f
        (FetchResult.notOk status (some (ErrorData.null typeError)))).form.error
      = some typeError := by
  have hp0 : ¬ price ≤ 0 := not_le.mpr hpp
  have hq0 : ¬ qty ≤ 0 := not_le.mpr hqq
  simp [handleSubmit, h1, h2, h3, h4, hd, hp, hq, hp0, hq0, orElseText, ErrorData.message, ht]

/-! ## Bulk delete, on success -/

/-- C20: `handleBulkDeleteAssets` never changes the asset list itself, whatever
ids it is given and whatever the service answers; when the bulk delete of a
non-empty id list succeeds it issues, after its DELETE, exactly one list
request, and clears the error. -/
theorem handleBulkDeleteAssets_of_success (API_BASE_URL : String) (s : AppState)
    (assetIds : Option (List String)) (res : FetchResult Unit) (ids : List String)
    (u : Unit) (hids : ids ≠ []) :
    (handleBulkDeleteAssets API_BASE_URL s assetIds res).1.assets = s.assets
      ∧ (handleBulkDeleteAssets API_BASE_URL s (some ids)
          (FetchResult.ok (Except.ok u))).1.assets = s.assets
      ∧ (handleBulkDeleteAssets API_BASE_URL s (some ids)
          (FetchResult.ok (Except.ok u))).1.error = none
      ∧ (handleBulkDeleteAssets API_BASE_URL s (some ids)
          (FetchResult.ok (Except.ok u))).2
        = [{ url := API_BASE_URL ++ "/assets"
             method := Method.DELETE
             headers :=
               [("Content-Type", "application/json"), ("Accept", "application/json")]
             body := some (Body.ids ids)
             credentials := some "omit" },
           { url := API_BASE_URL ++ "/assets", method := Method.GET, headers := [],
             body := none, credentials := none }] := by
  have hlen : ¬ ids.length = 0 := by
    intro h
    exact hids (List.length_eq_zero.mp h)
  have hreq := bulkDeleteRequest_eq API_BASE_URL ids
  refine ⟨?_, ?_, ?_, ?_⟩
  · rcases assetIds with _ | l
    · rfl
    · by_cases hl : l.length = 0
      · simp [handleBulkDeleteAssets, hl]
      · rcases res with m | ⟨st, _ | t | msg⟩ | (m | v) <;>
          simp [handleBulkDeleteAssets, hl, fetchAssetsStart, ErrorData.message]
  · simp [handleBulkDeleteAssets, hlen, fetchAssetsStart]
  · simp [handleBulkDeleteAssets, hlen, fetchAssetsStart]
  · simp [handleBulkDeleteAssets, hlen, fetchAssetsStart, hreq, assetsEndpoint]

/-- Witness of C20: the successful bulk delete of the ids '1' and '3' leaves
the two assets of those ids in the list. -/
theorem handleBulkDeleteAssets_of_success_witness :
    (handleBulkDeleteAssets "http://localhost:5001"
        (staleState [relianceAsset, bitcoinAsset] [] 0) (some ["1", "3"])
        (FetchResult.ok (Except.ok ()))).1.assets = [relianceAsset, bitcoinAsset]
      ∧ (handleBulkDeleteAssets "http://localhost:5001"
          (staleState [relianceAsset, bitcoinAsset] [] 0) (some ["1", "3"])
          (FetchResult.ok (Except.ok ()))).1.error = none :=
  ⟨(handleBulkDeleteAssets_of_success "http://localhost:5001"
      (staleState [relianceAsset, bitcoinAsset] [] 0) none (FetchResult.rejected "unused")
      ["1", "3"] () (by simp)).2.1,
   (handleBulkDeleteAssets_of_success "http://localhost:5001"
      (staleState [relianceAsset, bitcoinAsset] [] 0) none (FetchResult.rejected "unused")
      ["1", "3"] () (by simp)).2.2.1⟩

/-! ## Price refresh -/

/-- C21: after a price refresh on a non-empty asset list, the price map is the
response mapping on success, so a symbol the response leaves out is unpriced
whatever the prior map held, and it is the prior map, with the price error set,
on every failure; loadingPrices is false in both cases. -/
theorem fetchLivePrices_replaces_or_keeps (API_BASE_URL : String) (now : Nat)
    (s : AppState) (assetsList : List Asset) (res : FetchResult PriceMap)
    (hne : assetsList ≠ []) :
    (∀ R, res = FetchResult.ok (Except.ok R) →
        (fetchLivePrices API_BASE_URL now s assetsList res).1.livePrices = R
          ∧ ∀ symbol, R.lookup symbol = none →
              (fetchLivePrices API_BASE_URL now s assetsList res).1.livePrices.lookup symbol
                = none)
      ∧ ((∀ R, res ≠ FetchResult.ok (Except.ok R)) →
        (fetchLivePrices API_BASE_URL now s assetsList res).1.livePrices = s.livePrices
          ∧ (fetchLivePrices API_BASE_URL now s assetsList res).1.priceError
              = some "Failed to load live prices. Some features may be limited.")
      ∧ (fetchLivePrices API_BASE_URL now s assetsList res).1.loadingPrices = false := by
  have hlen : ¬ assetsList.length = 0 := by
    intro h
    exact hne (List.length_eq_zero.mp h)
  refine ⟨?_, ?_, ?_⟩
  · intro R hR
    subst hR
    have hmap : (fetchLivePrices API_BASE_URL now s assetsList
        (FetchResult.ok (Except.ok R))).1.livePrices = R := by
      simp [fetchLivePrices, hlen]
    refine ⟨hmap, ?_⟩
    intro symbol hsym
    rw [hmap]
    exact hsym
  · intro hfail
    rcases res with m | ⟨st, e⟩ | (m | R)
    · simp [fetchLivePrices, hlen]
    · simp [fetchLivePrices, hlen]
    · simp [fetchLivePrices, hlen]
    · exact absurd rfl (hfail R)
  · rcases res with m | ⟨st, e⟩ | (m | R) <;> simp [fetchLivePrices, hlen]

/-- Witness of C21: with RELIANCE.NS priced before, a response pricing only BTC
leaves RELIANCE.NS unpriced, and an HTTP 500 keeps the prior map. -/
theorem fetchLivePrices_replaces_or_keeps_witness :
    (fetchLivePrices "http://localhost:5001" 0
        (staleState [relianceAsset, bitcoinAsset] [("RELIANCE.NS", 2600)] 0)
        [relianceAsset, bitcoinAsset]
        (FetchResult.ok (Except.ok [("BTC", 2700000)]))).1.livePrices.lookup "RELIANCE.NS"
        = none
      ∧ (fetchLivePrices "http://localhost:5001" 0
          (staleState [relianceAsset, bitcoinAsset] [("RELIANCE.NS", 2600)] 0)
          [relianceAsset, bitcoinAsset] (FetchResult.notOk 500 none)).1.livePrices
        = [("RELIANCE.NS", 2600)] :=
  ⟨((fetchLivePrices_replaces_or_keeps "http://localhost:5001" 0
      (staleState [relianceAsset, bitcoinAsset] [("RELIANCE.NS", 2600)] 0)
      [relianceAsset, bitcoinAsset] (FetchResult.ok (Except.ok [("BTC", 2700000)]))
      (by simp)).1 [("BTC", 2700000)] rfl).2 "RELIANCE.NS" (by decide),
   ((fetchLivePrices_replaces_or_keeps "http://localhost:5001" 0
      (staleState [relianceAsset, bitcoinAsset] [("RELIANCE.NS", 2600)] 0)
      [relianceAsset, bitcoinAsset] (FetchResult.notOk 500 none)
      (by simp)).2.1 (by intro R h; cases h)).1⟩

/-- A tick of the mount timer makes no request and changes nothing, whatever
state is held when it fires. -/
theorem timerTick_eq (API_BASE_URL : String) (now : Nat) (s : AppState)
    (res : FetchResult PriceMap) : timerTick API_BASE_URL now s res = (s, []) := by
  simp [timerTick, intervalCallback, fetchLivePrices, AppState.initial]

/-- C22, evaluated on the code: with the RELIANCE.NS asset held when the timer
fires, the tick issues no request and leaves the state as it is, while the
"Refresh Prices" button in the same state posts that asset to the prices
endpoint. -/
theorem timerTick_issues_no_request :
    (staleState [relianceAsset] [] 0).assets ≠ []
      ∧ timerTick "http://localhost:5001" 0 (staleState [relianceAsset] [] 0)
          (FetchResult.ok (Except.ok [("RELIANCE.NS", 2600)]))
        = (staleState [relianceAsset] [] 0, [])
      ∧ (handleRefreshPrices "http://localhost:5001" 0 (staleState [relianceAsset] [] 0)
          (FetchResult.ok (Except.ok [("RELIANCE.NS", 2600)]))).2
        = [{ url := "http://localhost:5001/api/prices", method := Method.POST,
             headers := [("Content-Type", "application/json")],
             body := some (Body.assets [relianceAsset]), credentials := none }] := by
  refine ⟨?_, ?_, ?_⟩
  · simp [staleState]
  · simp [timerTick, intervalCallback, fetchLivePrices, AppState.initial]
  · simp [handleRefreshPrices, fetchLivePrices, staleState, pricesEndpoint]

/-! ## Algebra of the totals -/

/-- The eight totals, written with the class sums. -/
theorem totalsOf_eq (A : List Asset) (P : PriceMap) :
    totalsOf A P =
      { indianStocksTotal := specPurchaseTotal ASSET_TYPE_INDIAN_STOCK A
        usStocksTotal := specPurchaseTotal ASSET_TYPE_US_STOCK A
        cryptoTotal := specPurchaseTotal ASSET_TYPE_CRYPTO A
        grandTotal := specPurchaseTotal ASSET_TYPE_INDIAN_STOCK A
          + specPurchaseTotal ASSET_TYPE_US_STOCK A + specPurchaseTotal ASSET_TYPE_CRYPTO A
        indianStocksCurrentTotal := classCurrentSum ASSET_TYPE_INDIAN_STOCK A P
        usStocksCurrentTotal := classCurrentSum ASSET_TYPE_US_STOCK A P
        cryptoCurrentTotal := classCurrentSum ASSET_TYPE_CRYPTO A P
        grandCurrentTotal :=
          jsAdd
            (jsAdd (classCurrentSum ASSET_TYPE_INDIAN_STOCK A P)
              (classCurrentSum ASSET_TYPE_US_STOCK A P))
            (classCurrentSum ASSET_TYPE_CRYPTO A P) } := by
  simp [totalsOf, recomputeTotals, AppState.totals, runLoop_eq]

theorem specPurchaseTotal_append (T : String) (A B : List Asset) :
    specPurchaseTotal T (A ++ B) = specPurchaseTotal T A + specPurchaseTotal T B := by
  simp [specPurchaseTotal, List.filter_append, List.map_append, List.sum_append]

theorem specCurrentTotal_append (T : String) (A B : List Asset) (P : PriceMap) :
    specCurrentTotal T (A ++ B) P = specCurrentTotal T A P + specCurrentTotal T B P := by
  simp [specCurrentTotal, List.filter_append, List.map_append, List.sum_append]

theorem classCurrentSum_append (T : String) (A B : List Asset) (P : PriceMap) :
    classCurrentSum T (A ++ B) P
      = jsAdd (classCurrentSum T A P) (classCurrentSum T B P) := by
  simp [classCurrentSum, List.filter_append, List.map_append, jsSum_append]

theorem specPurchaseTotal_perm (T : String) (A B : List Asset) (h : A.Perm B) :
    specPurchaseTotal T A = specPurchaseTotal T B := by
  unfold specPurchaseTotal
  exact ((h.filter _).map _).sum_eq

theorem classCurrentSum_perm (T : String) (A B : List Asset) (P : PriceMap)
    (h : A.Perm B) : classCurrentSum T A P = classCurrentSum T B P := by
  unfold classCurrentSum
  exact jsSum_perm _ _ ((h.filter _).map _)

/-- The sum of three sums is the sum of the sums, also with `NaN`. -/
theorem jsAdd_three (a1 b1 c1 a2 b2 c2 : Option ℚ) :
    jsAdd (jsAdd (jsAdd a1 a2) (jsAdd b1 b2)) (jsAdd c1 c2)
      = jsAdd (jsAdd (jsAdd a1 b1) c1) (jsAdd (jsAdd a2 b2) c2) := by
  cases a1 <;> cases b1 <;> cases c1 <;> cases a2 <;> cases b2 <;> cases c2 <;>
    simp [jsAdd]
  ring

/-- C26: each of the eight totals computed for a concatenation is the sum of
the totals computed for its two parts; hence the totals of a permutation of the
list are the totals of the list, and the totals of the empty list are all 0. -/
theorem totalsOf_additive (A1 A2 : List Asset) (P : PriceMap) :
    totalsOf (A1 ++ A2) P = Totals.add (totalsOf A1 P) (totalsOf A2 P)
      ∧ (∀ B : List Asset, A1.Perm B → totalsOf B P = totalsOf A1 P)
      ∧ totalsOf [] P = Totals.zero := by
  refine ⟨?_, ?_, ?_⟩
  · simp only [totalsOf_eq, Totals.add, specPurchaseTotal_append, classCurrentSum_append,
      jsAdd_three]
    congr 1
    ring
  · intro B hB
    simp only [totalsOf_eq]
    rw [specPurchaseTotal_perm _ A1 B hB, specPurchaseTotal_perm _ A1 B hB,
      specPurchaseTotal_perm _ A1 B hB, classCurrentSum_perm _ A1 B P hB,
      classCurrentSum_perm _ A1 B P hB, classCurrentSum_perm _ A1 B P hB]
  · simp [totalsOf_eq, Totals.zero, specPurchaseTotal, classCurrentSum, jsSum, jsAdd]

/-- Witness of C26: swapping the RELIANCE.NS and BTC assets leaves the totals
as they are. -/
theorem totalsOf_additive_witness :
    totalsOf [bitcoinAsset, relianceAsset] [("BTC", 2700000)]
      = totalsOf [relianceAsset, bitcoinAsset] [("BTC", 2700000)] :=
  (totalsOf_additive [relianceAsset, bitcoinAsset] [] [("BTC", 2700000)]).2.1
    [bitcoinAsset, relianceAsset] (List.Perm.swap bitcoinAsset relianceAsset [])

/-! ## Monotonicity of the totals -/

theorem specTotals_le (T : String) (A : List Asset) (P : PriceMap)
    (h : ∀ a ∈ A, a.purchase_price * a.quantity ≤ specPrice P a * a.quantity) :
    specPurchaseTotal T A ≤ specCurrentTotal T A P := by
  induction A with
  | nil => simp [specPurchaseTotal, specCurrentTotal]
  | cons a A ih =>
    rw [specPurchaseTotal_cons, specCurrentTotal_cons]
    have hA := ih (fun b hb => h b (List.mem_cons_of_mem a hb))
    have ha := h a (List.mem_cons_self a A)
    by_cases hT : a.asset_type = T
    · simp only [hT, if_true]
      exact add_le_add ha hA
    · simp only [hT, if_false]
      simpa using hA

theorem specTotals_ge (T : String) (A : List Asset) (P : PriceMap)
    (h : ∀ a ∈ A, specPrice P a * a.quantity ≤ a.purchase_price * a.quantity) :
    specCurrentTotal T A P ≤ specPurchaseTotal T A := by
  induction A with
  | nil => simp [specPurchaseTotal, specCurrentTotal]
  | cons a A ih =>
    rw [specPurchaseTotal_cons, specCurrentTotal_cons]
    have hA := ih (fun b hb => h b (List.mem_cons_of_mem a hb))
    have ha := h a (List.mem_cons_self a A)
    by_cases hT : a.asset_type = T
    · simp only [hT, if_true]
      exact add_le_add ha hA
    · simp only [hT, if_false]
      simpa using hA

/-- For an asset list none of whose symbols reads an inherited member of the
price map, the four current totals are numbers, given by the class sums. -/
theorem totalsOf_current_of_own_symbols (A : List Asset) (P : PriceMap)
    (hown : ∀ a ∈ A, getMember P a.symbol ≠ Member.inherited) :
    (totalsOf A P).indianStocksCurrentTotal
        = some (specCurrentTotal ASSET_TYPE_INDIAN_STOCK A P)
      ∧ (totalsOf A P).usStocksCurrentTotal
        = some (specCurrentTotal ASSET_TYPE_US_STOCK A P)
      ∧ (totalsOf A P).cryptoCurrentTotal
        = some (specCurrentTotal ASSET_TYPE_CRYPTO A P)
      ∧ (totalsOf A P).grandCurrentTotal
        = some (specCurrentTotal ASSET_TYPE_INDIAN_STOCK A P
            + specCurrentTotal ASSET_TYPE_US_STOCK A P
            + specCurrentTotal ASSET_TYPE_CRYPTO A P) := by
  rw [totalsOf_eq]
  simp [classCurrentSum_of_own_symbols _ _ _ hown, jsAdd]

/-- Monotonicity outside the inherited members: when no symbol of the list
reads an inherited member of the price map, every quantity is at least 0 and
every non-zero price entry of a held symbol is at least the purchase price of
each asset of that symbol, each class current total is a number at least the
class purchase total, and so is the grand total; when every such entry is at
most the purchase price, each current total is at most the purchase total. -/
theorem totalsOf_monotone_of_own_symbols (A : List Asset) (P : PriceMap)
    (hown : ∀ a ∈ A, getMember P a.symbol ≠ Member.inherited)
    (hq : ∀ a ∈ A, 0 ≤ a.quantity) :
    ((∀ a ∈ A, ∀ p, P.lookup a.symbol = some p → p ≠ 0 → a.purchase_price ≤ p) →
        ∃ i u c g : ℚ,
          (totalsOf A P).indianStocksCurrentTotal = some i
            ∧ (totalsOf A P).usStocksCurrentTotal = some u
            ∧ (totalsOf A P).cryptoCurrentTotal = some c
            ∧ (totalsOf A P).grandCurrentTotal = some g
            ∧ (totalsOf A P).indianStocksTotal ≤ i
            ∧ (totalsOf A P).usStocksTotal ≤ u
            ∧ (totalsOf A P).cryptoTotal ≤ c
            ∧ (totalsOf A P).grandTotal ≤ g)
      ∧ ((∀ a ∈ A, ∀ p, P.lookup a.symbol = some p → p ≠ 0 → p ≤ a.purchase_price) →
        ∃ i u c g : ℚ,
          (totalsOf A P).indianStocksCurrentTotal = some i
            ∧ (totalsOf A P).usStocksCurrentTotal = some u
            ∧ (totalsOf A P).cryptoCurrentTotal = some c
            ∧ (totalsOf A P).grandCurrentTotal = some g
            ∧ i ≤ (totalsOf A P).indianStocksTotal
            ∧ u ≤ (totalsOf A P).usStocksTotal
            ∧ c ≤ (totalsOf A P).cryptoTotal
            ∧ g ≤ (totalsOf A P).grandTotal) := by
  obtain ⟨e1, e2, e3, e4⟩ := totalsOf_current_of_own_symbols A P hown
  refine ⟨?_, ?_⟩
  · intro hP
    have hle : ∀ a ∈ A, a.purchase_price * a.quantity ≤ specPrice P a * a.quantity := by
      intro a ha
      apply mul_le_mul_of_nonneg_right _ (hq a ha)
      unfold specPrice
      cases hl : P.lookup a.symbol with
      | none => exact le_refl _
      | some p =>
        by_cases hp : p = 0
        · simp [hp]
        · simp only [hp, if_false]
          exact hP a ha p hl hp
    have h1 := specTotals_le ASSET_TYPE_INDIAN_STOCK A P hle
    have h2 := specTotals_le ASSET_TYPE_US_STOCK A P hle
    have h3 := specTotals_le ASSET_TYPE_CRYPTO A P hle
    refine ⟨_, _, _, _, e1, e2, e3, e4, ?_⟩
    rw [totalsOf_eq]
    exact ⟨h1, h2, h3, add_le_add (add_le_add h1 h2) h3⟩
  · intro hP
    have hle : ∀ a ∈ A, specPrice P a * a.quantity ≤ a.purchase_price * a.quantity := by
      intro a ha
      apply mul_le_mul_of_nonneg_right _ (hq a ha)
      unfold specPrice
      cases hl : P.lookup a.symbol with
      | none => exact le_refl _
      | some p =>
        by_cases hp : p = 0
        · simp [hp]
        · simp only [hp, if_false]
          exact hP a ha p hl hp
    have h1 := specTotals_ge ASSET_TYPE_INDIAN_STOCK A P hle
    have h2 := specTotals_ge ASSET_TYPE_US_STOCK A P hle
    have h3 := specTotals_ge ASSET_TYPE_CRYPTO A P hle
    refine ⟨_, _, _, _, e1, e2, e3, e4, ?_⟩
    rw [totalsOf_eq]
    exact ⟨h1, h2, h3, add_le_add (add_le_add h1 h2) h3⟩

/-- Instance of the monotonicity outside the inherited members: BTC bought at
2500000 and priced at 2700000 gives current totals that are numbers at least
the purchase totals. -/
theorem totalsOf_monotone_of_own_symbols_example :
    ∃ i u c g : ℚ,
      (totalsOf [bitcoinAsset] [("BTC", 2700000)]).indianStocksCurrentTotal = some i
        ∧ (totalsOf [bitcoinAsset] [("BTC", 2700000)]).usStocksCurrentTotal = some u
        ∧ (totalsOf [bitcoinAsset] [("BTC", 2700000)]).cryptoCurrentTotal = some c
        ∧ (totalsOf [bitcoinAsset] [("BTC", 2700000)]).grandCurrentTotal = some g
        ∧ (totalsOf [bitcoinAsset] [("BTC", 2700000)]).indianStocksTotal ≤ i
        ∧ (totalsOf [bitcoinAsset] [("BTC", 2700000)]).usStocksTotal ≤ u
        ∧ (totalsOf [bitcoinAsset] [("BTC", 2700000)]).cryptoTotal ≤ c
        ∧ (totalsOf [bitcoinAsset] [("BTC", 2700000)]).grandTotal ≤ g :=
  (totalsOf_monotone_of_own_symbols [bitcoinAsset] [("BTC", 2700000)]
      (by intro a ha; simp at ha; subst ha; decide)
      (by intro a ha; simp at ha; subst ha; simp [bitcoinAsset]; norm_num)).1
    (by
      intro a ha p hl _
      simp at ha
      subst ha
      simp [bitcoinAsset, List.lookup] at hl
      subst hl
      simp only [bitcoinAsset]
      norm_num)

/-- C27, evaluated on the code: for one Indian Stock asset of symbol
'constructor' (2500 × 10, quantity at least 0) and the empty price map, which
has no entry at all, so that every truthy entry is both at least and at most
the purchase price, the class purchase total and the grand purchase total are
25000 while the class current total and the grand current total are `NaN`,
which is neither at least nor at most 25000. -/
theorem totalsOf_nan_on_inherited_symbol :
    (∀ a ∈ [constructorAsset], 0 ≤ a.quantity)
      ∧ (∀ a ∈ [constructorAsset], ∀ p,
          List.lookup a.symbol ([] : PriceMap) = some p → p ≠ 0 → a.purchase_price ≤ p)
      ∧ (∀ a ∈ [constructorAsset], ∀ p,
          List.lookup a.symbol ([] : PriceMap) = some p → p ≠ 0 → p ≤ a.purchase_price)
      ∧ (totalsOf [constructorAsset] []).indianStocksTotal = 25000
      ∧ (totalsOf [constructorAsset] []).grandTotal = 25000
      ∧ (totalsOf [constructorAsset] []).indianStocksCurrentTotal = none
      ∧ (totalsOf [constructorAsset] []).grandCurrentTotal = none
      ∧ (¬ ∃ c : ℚ, (totalsOf [constructorAsset] []).indianStocksCurrentTotal = some c
          ∧ (totalsOf [constructorAsset] []).indianStocksTotal ≤ c)
      ∧ (¬ ∃ c : ℚ, (totalsOf [constructorAsset] []).indianStocksCurrentTotal = some c
          ∧ c ≤ (totalsOf [constructorAsset] []).indianStocksTotal) := by
  have hm' : getMember [] "constructor" = Member.inherited := by decide
  have hc : (totalsOf [constructorAsset] []).indianStocksCurrentTotal = none := by
    simp [totalsOf, recomputeTotals, AppState.totals, runLoop, accumulate, currentValue, hm',
      jsAdd, Accumulators.zero, constructorAsset, ASSET_TYPE_INDIAN_STOCK]
  have hg : (totalsOf [constructorAsset] []).grandCurrentTotal = none := by
    simp [totalsOf, recomputeTotals, AppState.totals, runLoop, accumulate, currentValue, hm',
      jsAdd, Accumulators.zero, constructorAsset, ASSET_TYPE_INDIAN_STOCK]
  refine ⟨?_, ?_, ?_, ?_, ?_, hc, hg, ?_, ?_⟩
  · intro a ha
    simp at ha
    subst ha
    simp [constructorAsset]
  · intro a _ p hl
    simp at hl
  · intro a _ p hl
    simp at hl
  · simp [totalsOf, recomputeTotals, AppState.totals, runLoop, accumulate, purchaseValue,
      Accumulators.zero, constructorAsset, ASSET_TYPE_INDIAN_STOCK]
    norm_num
  · simp [totalsOf, recomputeTotals, AppState.totals, runLoop, accumulate, purchaseValue,
      Accumulators.zero, constructorAsset, ASSET_TYPE_INDIAN_STOCK]
    norm_num
  · rintro ⟨c, h, _⟩
    rw [hc] at h
    exact Option.noConfusion h
  · rintro ⟨c, h, _⟩
    rw [hc] at h
    exact Option.noConfusion h

/-! ## Selection -/

theorem indexOf_eq_none_iff (l : List String) (id : String) :
    indexOf l id = none ↔ id ∉ l := by
  induction l with
  | nil => simp [indexOf]
  | cons x xs ih =>
    by_cases hx : x = id
    · simp [indexOf, hx]
    · have hx' : ¬ id = x := fun h => hx h.symm
      simp [indexOf, hx, hx', ih]

theorem indexOf_eq_some (l : List String) (id : String) (i : Nat)
    (h : indexOf l id = some i) :
    i < l.length ∧ l.erase id = l.take i ++ l.drop (i + 1) := by
  induction l generalizing i with
  | nil => simp [indexOf] at h
  | cons x xs ih =>
    by_cases hx : x = id
    · simp [indexOf, hx] at h
      subst h
      simp [hx]
    · simp only [indexOf, hx, if_false, Option.map_eq_some'] at h
      obtain ⟨j, hj, hji⟩ := h
      subst hji
      obtain ⟨hlt, her⟩ := ih j hj
      refine ⟨by simpa using hlt, ?_⟩
      have hbeq : (x == id) = false := by simpa using hx
      rw [List.erase_cons, hbeq]
      simp [her]

/-- The click of a row removes the id from the selection when it is there (its
first occurrence) and appends it otherwise. -/
theorem handleCheckboxClick_selectedAssets (st : AssetListState) (id : String) :
    (handleCheckboxClick st id).selectedAssets
      = if id ∈ st.selectedAssets then st.selectedAssets.erase id
        else st.selectedAssets ++ [id] := by
  cases h : indexOf st.selectedAssets id with
  | none =>
    have hmem := (indexOf_eq_none_iff _ _).mp h
    simp [handleCheckboxClick, h, hmem]
  | some i =>
    have hmem : id ∈ st.selectedAssets := by
      by_contra hc
      rw [(indexOf_eq_none_iff _ _).mpr hc] at h
      cases h
    obtain ⟨hlt, her⟩ := indexOf_eq_some _ _ _ h
    simp only [handleCheckboxClick, h, hmem, if_true, her]
    by_cases h0 : i = 0
    · subst h0
      simp
    · simp only [h0, if_false]
      by_cases hlast : i = st.selectedAssets.length - 1
      · simp only [hlast, if_true]
        have hdrop : st.selectedAssets.length - 1 + 1 = st.selectedAssets.length := by omega
        rw [hdrop, List.drop_length, List.append_nil, List.dropLast_eq_take]
      · simp only [hlast, if_false]

/-- Clicking rows of distinct ids that are not selected appends them in order. -/
theorem foldl_handleCheckboxClick (ids : List String) (st : AssetListState)
    (hnodup : ids.Nodup) (hdisj : ∀ i ∈ ids, i ∉ st.selectedAssets) :
    (ids.foldl handleCheckboxClick st).selectedAssets = st.selectedAssets ++ ids := by
  induction ids generalizing st with
  | nil => simp
  | cons i ids ih =>
    rw [List.nodup_cons] at hnodup
    obtain ⟨hi, hnd⟩ := hnodup
    have hstep : (handleCheckboxClick st i).selectedAssets = st.selectedAssets ++ [i] := by
      rw [handleCheckboxClick_selectedAssets]
      simp [hdisj i (List.mem_cons_self i ids)]
    rw [List.foldl_cons, ih (handleCheckboxClick st i) hnd, hstep]
    · simp
    · intro j hj
      rw [hstep]
      simp only [List.mem_append, List.mem_singleton, not_or]
      refine ⟨hdisj j (List.mem_cons_of_mem i hj), ?_⟩
      intro hji
      exact hi (hji ▸ hj)

/-- C23: from an empty selection, clicking the rows of pairwise distinct ids in
order yields the selection of those ids in that order; pressing "Delete
Selected" then calls `onBulkDeleteAssets` exactly once, with that list, and
resets the selection to empty. -/
theorem click_rows_then_bulk_delete (st : AssetListState) (ids : List String)
    (hempty : st.selectedAssets = []) (hnodup : ids.Nodup) :
    (ids.foldl handleCheckboxClick st).selectedAssets = ids
      ∧ (handleBulkDelete (ids.foldl handleCheckboxClick st) true).2 = [ids]
      ∧ (handleBulkDelete (ids.foldl handleCheckboxClick st) true).1.selectedAssets = [] := by
  have hsel : (ids.foldl handleCheckboxClick st).selectedAssets = ids := by
    rw [foldl_handleCheckboxClick ids st hnodup (by simp [hempty]), hempty]
    simp
  simp [handleBulkDelete, hsel]

/-- Witness of C23: clicking the rows of the assets '1' then '2' passes
['1', '2']. -/
theorem click_rows_then_bulk_delete_witness :
    (handleBulkDelete (["1", "2"].foldl handleCheckboxClick AssetListState.initial) true).2
      = [["1", "2"]] :=
  (click_rows_then_bulk_delete AssetListState.initial ["1", "2"] rfl (by decide)).2.1

/-- C28: on a selection without duplicates, the click of the row of `id` gives
a selection without duplicates that holds `id` exactly when the old one did
not and holds every other id exactly when the old one did; a removal keeps the
other ids in their order, an addition keeps the old selection and puts `id`
last; clicking twice an id that was not selected restores the state. -/
theorem handleCheckboxClick_toggles (st : AssetListState) (id : String)
    (hnodup : st.selectedAssets.Nodup) :
    (handleCheckboxClick st id).selectedAssets.Nodup
      ∧ (id ∈ (handleCheckboxClick st id).selectedAssets ↔ id ∉ st.selectedAssets)
      ∧ (∀ x, x ≠ id →
          (x ∈ (handleCheckboxClick st id).selectedAssets ↔ x ∈ st.selectedAssets))
      ∧ (id ∈ st.selectedAssets →
          (handleCheckboxClick st id).selectedAssets
            = st.selectedAssets.filter (fun x => decide (x ≠ id)))
      ∧ (id ∉ st.selectedAssets →
          (handleCheckboxClick st id).selectedAssets = st.selectedAssets ++ [id])
      ∧ (id ∉ st.selectedAssets →
          handleCheckboxClick (handleCheckboxClick st id) id = st) := by
  have hnew := handleCheckboxClick_selectedAssets st id
  by_cases hmem : id ∈ st.selectedAssets
  · simp only [hmem, if_true] at hnew
    rw [hnew]
    refine ⟨hnodup.erase id, ?_, ?_, ?_, ?_, ?_⟩
    · simp [hnodup.mem_erase_iff, hmem]
    · intro x hx
      simp [hnodup.mem_erase_iff, hx]
    · intro _
      rw [hnodup.erase_eq_filter]
      apply List.filter_congr
      intro x _
      by_cases hx : x = id <;> simp [hx]
    · intro h
      exact absurd hmem h
    · intro h
      exact absurd hmem h
  · simp only [hmem, if_false] at hnew
    have hnd : (st.selectedAssets ++ [id]).Nodup := by
      rw [List.nodup_append]
      refine ⟨hnodup, List.nodup_singleton id, ?_⟩
      intro a ha hb
      rw [List.mem_singleton] at hb
      subst hb
      exact hmem ha
    rw [hnew]
    refine ⟨hnd, ?_, ?_, ?_, ?_, ?_⟩
    · simp [hmem]
    · intro x hx
      simp [hx]
    · intro h
      exact absurd h hmem
    · intro _
      rfl
    · intro _
      have h2 := handleCheckboxClick_selectedAssets (handleCheckboxClick st id) id
      rw [hnew] at h2
      have hin : id ∈ st.selectedAssets ++ [id] := by simp
      simp only [hin, if_true] at h2
      rw [List.erase_append_right _ hmem] at h2
      simp only [List.erase_cons_head, List.append_nil] at h2
      have hset : ∀ t : AssetListState, ∀ i : String,
          handleCheckboxClick t i
            = { t with selectedAssets := (handleCheckboxClick t i).selectedAssets } :=
        fun _ _ => rfl
      calc handleCheckboxClick (handleCheckboxClick st id) id
          = { handleCheckboxClick st id with selectedAssets := st.selectedAssets } := by
            rw [hset (handleCheckboxClick st id) id, h2]
        _ = st := by
            cases st
            rfl

/-- Witness of C28: on the selection ['1', '2'] the click of '1' leaves ['2'],
and the click of '3' gives ['1', '2', '3']. -/
theorem handleCheckboxClick_toggles_witness :
    (handleCheckboxClick { AssetListState.initial with selectedAssets := ["1", "2"] }
        "1").selectedAssets
        = ["1", "2"].filter (fun x => decide (x ≠ "1"))
      ∧ (handleCheckboxClick { AssetListState.initial with selectedAssets := ["1", "2"] }
          "3").selectedAssets = ["1", "2"] ++ ["3"] :=
  ⟨(handleCheckboxClick_toggles { AssetListState.initial with selectedAssets := ["1", "2"] }
      "1" (by decide)).2.2.2.1 (by decide),
   (handleCheckboxClick_toggles { AssetListState.initial with selectedAssets := ["1", "2"] }
      "3" (by decide)).2.2.2.2.1 (by decide)⟩

/-- C24: checking the select-all box of the table of a class sets the
selection to the ids of the assets of that class, in list order, whatever was
selected before; unchecking it sets the selection to empty; after checking, the
selected count shown equals the row count of the table. -/
theorem handleSelectAllClick_selects_class (st : AssetListState) (assets : List Asset)
    (T : String) :
    (handleSelectAllClick st true (assetsOfClass assets T)).selectedAssets
        = (assets.filter (fun asset => decide (asset.asset_type = T))).map (fun a => a.id)
      ∧ (handleSelectAllClick st false (assetsOfClass assets T)).selectedAssets = []
      ∧ numSelected (handleSelectAllClick st true (assetsOfClass assets T))
          (assetsOfClass assets T) = rowCount (assetsOfClass assets T) := by
  refine ⟨rfl, rfl, ?_⟩
  have hall : ((assetsOfClass assets T).map (fun n => n.id)).filter
      (fun id => (assetsOfClass assets T).any (fun asset => decide (asset.id = id)))
      = (assetsOfClass assets T).map (fun n => n.id) := by
    rw [List.filter_eq_self]
    intro i hi
    rw [List.mem_map] at hi
    obtain ⟨a, ha, hai⟩ := hi
    rw [List.any_eq_true]
    exact ⟨a, ha, by simpa using hai⟩
  simp only [numSelected, rowCount, handleSelectAllClick, if_true]
  rw [hall, List.length_map]

/-- Witness of C24: with the Indian Stock assets '1' and '2' and the US Stock
asset '3', checking the select-all box of the Indian Stock table over an
earlier selection gives ['1', '2'] and the button text 'Delete Selected (2)'. -/
theorem handleSelectAllClick_selects_class_witness :
    (handleSelectAllClick { AssetListState.initial with selectedAssets := ["3"] } true
        (assetsOfClass [relianceAsset, infosysAsset, appleAsset] "Indian Stock")).selectedAssets
        = ["1", "2"]
      ∧ deleteSelectedText
          (handleSelectAllClick { AssetListState.initial with selectedAssets := ["3"] } true
            (assetsOfClass [relianceAsset, infosysAsset, appleAsset] "Indian Stock"))
          (assetsOfClass [relianceAsset, infosysAsset, appleAsset] "Indian Stock")
        = some "Delete Selected (2)" := by
  have w := handleSelectAllClick_selects_class
    { AssetListState.initial with selectedAssets := ["3"] }
    [relianceAsset, infosysAsset, appleAsset] "Indian Stock"
  have hrows : rowCount (assetsOfClass [relianceAsset, infosysAsset, appleAsset]
      "Indian Stock") = 2 := by
    simp [rowCount, assetsOfClass, relianceAsset, infosysAsset, appleAsset]
  refine ⟨?_, ?_⟩
  · rw [w.1]
    simp [relianceAsset, infosysAsset, appleAsset]
  · unfold deleteSelectedText
    rw [w.2.2, hrows]
    decide

/-! ## Editing a row -/

/-- Counterexample to C25 as stated: after the purchase price of the RELIANCE.NS
row is changed to the non-empty value '0' (with quantity '12' and date
'2023-01-20'), saving makes no call of `onUpdateAsset`; and for the values
'2600', '12', '2023-01-20' the data object passed also carries the key `id`, so
it is not the object of the five other keys. -/
theorem saveAssetOnClick_zero_price_or_extra_key :
    (saveAssetOnClick
        (handleEditDataChange sampleParseFloat
          (handleEditDataChange sampleParseFloat
            (handleEditDataChange sampleParseFloat
              (editAssetOnClick AssetListState.initial relianceAsset)
              (EditEvent.purchase_price "0"))
            (EditEvent.quantity "12"))
          (EditEvent.purchase_date "2023-01-20")) true).2 = []
      ∧ (saveAssetOnClick
          (handleEditDataChange sampleParseFloat
            (handleEditDataChange sampleParseFloat
              (handleEditDataChange sampleParseFloat
                (editAssetOnClick AssetListState.initial relianceAsset)
                (EditEvent.purchase_price "2600"))
              (EditEvent.quantity "12"))
            (EditEvent.purchase_date "2023-01-20")) true).2
        = [(some "1",
            { id := some "1", symbol := some "RELIANCE.NS", asset_type := some "Indian Stock",
              purchase_price := NumberField.number 2600, quantity := NumberField.number 12,
              purchase_date := some "2023-01-20" })]
      ∧ ({ id := some "1", symbol := some "RELIANCE.NS", asset_type := some "Indian Stock",
           purchase_price := NumberField.number 2600, quantity := NumberField.number 12,
           purchase_date := some "2023-01-20" } : EditedAssetData)
        ≠ { id := none, symbol := some "RELIANCE.NS", asset_type := some "Indian Stock",
            purchase_price := NumberField.number 2600, quantity := NumberField.number 12,
            purchase_date := some "2023-01-20" } := by
  have h0 : sampleParseFloat "0" = some 0 := by decide
  have h1 : sampleParseFloat "2600" = some 2600 := by decide
  have h2 : sampleParseFloat "12" = some 12 := by decide
  refine ⟨?_, ?_, ?_⟩
  · simp [saveAssetOnClick, handleEditDataChange, editAssetOnClick, processedNumber, h0, h2,
      NumberField.truthy]
  · simp [saveAssetOnClick, handleEditDataChange, editAssetOnClick, processedNumber, h1, h2,
      NumberField.truthy, textTruthy, EditedAssetData.ofAsset, relianceAsset]
  · intro h
    have hid := congrArg EditedAssetData.id h
    cases hid

/-- C25, amended: for every asset, entering edit mode on it, changing
purchase_price and quantity to texts that parse to non-zero numbers and
purchase_date to a non-empty text, and saving, calls `onUpdateAsset` once, with
that asset's id and a data object whose symbol and asset_type are those of the
asset, whose purchase_price and quantity are the parsed numbers and whose
purchase_date is the text entered. -/
theorem edit_then_save_calls_onUpdateAsset (parseFloat : String → Option ℚ)
    (st : AssetListState) (asset : Asset) (vp vq vd : String) (p q : ℚ) (success : Bool)
    (hvp : vp ≠ "") (hvq : vq ≠ "") (hvd : vd ≠ "")
    (hp : parseFloat vp = some p) (hp0 : p ≠ 0)
    (hq : parseFloat vq = some q) (hq0 : q ≠ 0) :
    ∃ data : EditedAssetData,
      (saveAssetOnClick
          (handleEditDataChange parseFloat
            (handleEditDataChange parseFloat
              (handleEditDataChange parseFloat (editAssetOnClick st asset)
                (EditEvent.purchase_price vp))
              (EditEvent.quantity vq))
            (EditEvent.purchase_date vd)) success).2 = [(some asset.id, data)]
        ∧ data.symbol = some asset.symbol
        ∧ data.asset_type = some asset.asset_type
        ∧ data.purchase_price = NumberField.number p
        ∧ data.quantity = NumberField.number q
        ∧ data.purchase_date = some vd := by
  refine ⟨{ EditedAssetData.ofAsset asset with
            purchase_price := NumberField.number p, quantity := NumberField.number q,
            purchase_date := some vd }, ?_, rfl, rfl, rfl, rfl, rfl⟩
  cases success <;>
    simp [saveAssetOnClick, handleEditDataChange, editAssetOnClick, processedNumber, hvp, hvq,
      hvd, hp, hq, hp0, hq0, NumberField.truthy, textTruthy, EditedAssetData.ofAsset]

/-- Witness of C25, amended: the RELIANCE.NS asset edited to 2600, 12 and
'2023-01-20'. -/
theorem edit_then_save_calls_onUpdateAsset_witness :
    ∃ data : EditedAssetData,
      (saveAssetOnClick
          (handleEditDataChange sampleParseFloat
            (handleEditDataChange sampleParseFloat
              (handleEditDataChange sampleParseFloat
                (editAssetOnClick AssetListState.initial relianceAsset)
                (EditEvent.purchase_price "2600"))
              (EditEvent.quantity "12"))
            (EditEvent.purchase_date "2023-01-20")) true).2
          = [(some relianceAsset.id, data)]
        ∧ data.symbol = some relianceAsset.symbol
        ∧ data.asset_type = some relianceAsset.asset_type
        ∧ data.purchase_price = NumberField.number 2600
        ∧ data.quantity = NumberField.number 12
        ∧ data.purchase_date = some "2023-01-20" :=
  edit_then_save_calls_onUpdateAsset sampleParseFloat AssetListState.initial relianceAsset
    "2600" "12" "2023-01-20" 2600 12 true (by decide) (by decide) (by decide) (by decide)
    (by norm_num) (by decide) (by norm_num)

/-! ## Rounding to the nearest double -/

theorem roundHalfEven_of_lt (y : ℚ) (m : ℤ) (h1 : (m : ℚ) - 1 / 2 < y)
    (h2 : y < (m : ℚ) + 1 / 2) : roundHalfEven y = m := by
  unfold roundHalfEven
  have hfl := Int.floor_le y
  have hlt := Int.lt_floor_add_one y
  by_cases hc : (m : ℚ) ≤ y
  · have hf : ⌊y⌋ = m := by
      rw [Int.floor_eq_iff]
      constructor
      · exact hc
      · linarith
    rw [hf]
    have hlt2 : y - (m : ℚ) < 1 / 2 := by linarith
    rw [if_pos hlt2]
  · have hc' : y < m := not_le.mp hc
    have hf : ⌊y⌋ = m - 1 := by
      rw [Int.floor_eq_iff]
      push_cast
      constructor
      · linarith
      · linarith
    rw [hf]
    push_cast
    have h3 : ¬ (y - ((m : ℚ) - 1) < 1 / 2) := by
      intro h
      linarith
    have h4 : 1 / 2 < y - ((m : ℚ) - 1) := by linarith
    rw [if_neg h3, if_pos h4]
    ring

theorem roundHalfEven_of_tie (y : ℚ) (k : ℤ) (h : y = (k : ℚ) + 1 / 2) :
    roundHalfEven y = if k % 2 = 0 then k else k + 1 := by
  unfold roundHalfEven
  have hf : ⌊y⌋ = k := by
    rw [Int.floor_eq_iff]
    constructor
    · rw [h]; linarith
    · rw [h]; linarith
  rw [hf]
  have h3 : ¬ (y - (k : ℚ) < 1 / 2) := by
    rw [h]; intro hh; linarith
  have h4 : ¬ (1 / 2 < y - (k : ℚ)) := by
    rw [h]; intro hh; linarith
  rw [if_neg h3, if_neg h4]

/-- A positive `x` with `2^e ≤ x < 2^(e+1)` rounds to the multiple of
`2^(e-52)` that its scaled value rounds to. -/
theorem roundDouble_of_bounds (x : ℚ) (e m : ℤ) (hx : 0 < x) (h1 : (2 : ℚ) ^ e ≤ x)
    (h2 : x < (2 : ℚ) ^ (e + 1)) (hm : roundHalfEven (x / 2 ^ (e - 52)) = m) :
    roundDouble x = m * 2 ^ (e - 52) := by
  have hlog : Int.log 2 |x| = e := by
    rw [abs_of_pos hx]
    have ha : e ≤ Int.log 2 x := by
      rw [← Int.zpow_le_iff_le_log (by norm_num) hx]
      exact_mod_cast h1
    have hb : Int.log 2 x < e + 1 := by
      rw [← Int.lt_zpow_iff_log_lt (by norm_num) hx]
      exact_mod_cast h2
    omega
  unfold roundDouble
  rw [if_neg (ne_of_gt hx), hlog, hm]

/-- The sum 1 + 2 is the double 3. -/
theorem roundDouble_3 : roundDouble 3 = 3 := by
  rw [roundDouble_of_bounds 3 1 6755399441055744 (by norm_num) (by norm_num) (by norm_num)
    (roundHalfEven_of_lt _ _ (by norm_num) (by norm_num))]
  norm_num

/-- The quotient 1 / 3 rounds to 6004799503160661 × 2^(-54). -/
theorem roundDouble_1_div_3 :
    roundDouble (1 / 3) = 6004799503160661 / 18014398509481984 := by
  rw [roundDouble_of_bounds (1 / 3) (-2) 6004799503160661 (by norm_num) (by norm_num)
    (by norm_num) (roundHalfEven_of_lt _ _ (by norm_num) (by norm_num))]
  norm_num

/-- The quotient 2 / 3 rounds to 6004799503160661 × 2^(-53). -/
theorem roundDouble_2_div_3 :
    roundDouble (2 / 3) = 6004799503160661 / 9007199254740992 := by
  rw [roundDouble_of_bounds (2 / 3) (-1) 6004799503160661 (by norm_num) (by norm_num)
    (by norm_num) (roundHalfEven_of_lt _ _ (by norm_num) (by norm_num))]
  norm_num

/-- The double of 1 / 3, times 100, rounds to 4691249611844266 × 2^(-47),
which is 33.33333333333333. -/
theorem roundDouble_third_mul_100 :
    roundDouble (6004799503160661 / 18014398509481984 * 100)
      = 2345624805922133 / 70368744177664 := by
  rw [roundDouble_of_bounds (6004799503160661 / 18014398509481984 * 100) 5
    4691249611844266 (by norm_num) (by norm_num) (by norm_num)
    (roundHalfEven_of_lt _ _ (by norm_num) (by norm_num))]
  norm_num

/-- The double of 2 / 3, times 100, rounds to 4691249611844266 × 2^(-46),
which is 66.66666666666666. -/
theorem roundDouble_two_thirds_mul_100 :
    roundDouble (6004799503160661 / 9007199254740992 * 100)
      = 2345624805922133 / 35184372088832 := by
  rw [roundDouble_of_bounds (6004799503160661 / 9007199254740992 * 100) 6
    4691249611844266 (by norm_num) (by norm_num) (by norm_num)
    (roundHalfEven_of_lt _ _ (by norm_num) (by norm_num))]
  norm_num

/-- The sum of the two doubles 33.33333333333333 and 66.66666666666666 is a
double, 99.99999999999999. -/
theorem roundDouble_shares_sum :
    roundDouble (2345624805922133 / 70368744177664 + 2345624805922133 / 35184372088832)
      = 7036874417766399 / 70368744177664 := by
  rw [roundDouble_of_bounds
    (2345624805922133 / 70368744177664 + 2345624805922133 / 35184372088832) 6
    7036874417766399 (by norm_num) (by norm_num) (by norm_num)
    (roundHalfEven_of_lt _ _ (by norm_num) (by norm_num))]
  norm_num

/-! ## Allocation shares -/

theorem orZero_eq (x : ℚ) : orZero x = x := by
  unfold orZero
  by_cases h : x = 0 <;> simp [h]

/-- C29 does not hold as stated. While `loading` is true the allocation blocks
are replaced by a spinner: with a non-empty asset list and the current totals
25000, 0 and 75000 no class is displayed and the shares of the displayed
classes sum to 0. And the shares are doubles: for a loaded portfolio with the
current totals 1, 2 and 0 the two displayed shares are 33.33333333333333 and
66.66666666666666, whose sum, also as a double, is 99.99999999999999. -/
theorem allocationShare_sum_counterexample :
    ({ sampleChartsProps with loading := true } : ChartsProps).assets ≠ []
      ∧ ({ sampleChartsProps with loading := true } : ChartsProps).indianStocksCurrentTotal
        = some 25000
      ∧ ({ sampleChartsProps with loading := true } : ChartsProps).usStocksCurrentTotal
        = some 0
      ∧ ({ sampleChartsProps with loading := true } : ChartsProps).cryptoCurrentTotal
        = some 75000
      ∧ displayedItems { sampleChartsProps with loading := true } = []
      ∧ ((displayedItems { sampleChartsProps with loading := true }).map
          (fun item => item.current
            / totalPortfolioValue { sampleChartsProps with loading := true } * 100)).sum
        ≠ 100
      ∧ thirdsChartsProps.assets ≠ []
      ∧ thirdsChartsProps.loading = false
      ∧ (displayedItems thirdsChartsProps).map (fun item => item.current) = [1, 2]
      ∧ (displayedItems thirdsChartsProps).map (allocationShareDouble thirdsChartsProps)
        = [some (2345624805922133 / 70368744177664),
           some (2345624805922133 / 35184372088832)]
      ∧ doubleAdd (2345624805922133 / 70368744177664) (2345624805922133 / 35184372088832)
        = 100 - 1 / 70368744177664
      ∧ (2345624805922133 / 70368744177664 + 2345624805922133 / 35184372088832 : ℚ)
        ≠ 100 := by
  have hd : displayedItems { sampleChartsProps with loading := true } = [] := by
    simp [displayedItems]
  have htot : totalPortfolioValueDouble thirdsChartsProps = 3 := by
    have h12 : (1 : ℚ) + 2 = 3 := by norm_num
    simp only [totalPortfolioValueDouble, thirdsChartsProps, orZeroOfNumber, orZero_eq,
      doubleAdd, h12, roundDouble_3, add_zero]
  have hitems : displayedItems thirdsChartsProps
      = [{ name := "Indian Stocks", purchase := 1, current := 1 },
         { name := "US Stocks", purchase := 2, current := 2 }] := by
    simp [displayedItems, thirdsChartsProps, isDataLoaded, assetData, orZeroOfNumber,
      orZero_eq, List.filter_cons]
  refine ⟨?_, rfl, rfl, rfl, hd, ?_, ?_, rfl, ?_, ?_, ?_, ?_⟩
  · simp [sampleChartsProps]
  · rw [hd]
    norm_num
  · simp [thirdsChartsProps]
  · rw [hitems]
    rfl
  · rw [hitems]
    have h3 : (3 : ℚ) ≠ 0 := by norm_num
    simp only [List.map_cons, List.map_nil, allocationShareDouble, htot, doubleDiv, doubleMul,
      ne_eq, h3, not_false_eq_true, if_true, if_false, Option.map_some', roundDouble_1_div_3,
      roundDouble_2_div_3, roundDouble_third_mul_100, roundDouble_two_thirds_mul_100]
  · unfold doubleAdd
    rw [roundDouble_shares_sum]
    norm_num
  · norm_num

/-- C29, amended: while PortfolioCharts is not loading, for a non-empty asset
list whose three class current totals are numbers at least 0, with the numbers
taken as exact rationals, when one of the totals is positive the divisor of the
shares is the total itself, the share of every displayed class is
current / total × 100 and lies in (0, 100], and the shares of the displayed
classes sum to exactly 100; the divisor differs from the total only when the
total is 0, and then no class is displayed. -/
theorem allocationShare_sum (p : ChartsProps) (a b c : ℚ) (hloaded : p.assets ≠ [])
    (hloading : p.loading = false)
    (ha : p.indianStocksCurrentTotal = some a) (hb : p.usStocksCurrentTotal = some b)
    (hc : p.cryptoCurrentTotal = some c)
    (h1 : 0 ≤ a) (h2 : 0 ≤ b) (h3 : 0 ≤ c) :
    ((0 < a ∨ 0 < b ∨ 0 < c) →
        allocationDivisor p = totalPortfolioValue p
          ∧ (∀ item ∈ displayedItems p,
              allocationShare p item = some (item.current / totalPortfolioValue p * 100)
                ∧ 0 < item.current / totalPortfolioValue p * 100
                ∧ item.current / totalPortfolioValue p * 100 ≤ 100)
          ∧ ((displayedItems p).map
              (fun item => item.current / totalPortfolioValue p * 100)).sum = 100)
      ∧ (allocationDivisor p ≠ totalPortfolioValue p → totalPortfolioValue p = 0)
      ∧ (totalPortfolioValue p = 0 → displayedItems p = []) := by
  have hload : isDataLoaded p = true := by
    unfold isDataLoaded
    simpa [List.length_pos] using hloaded
  have htot : totalPortfolioValue p = a + b + c := by
    simp [totalPortfolioValue, orZeroOfNumber, ha, hb, hc, orZero_eq]
  have hdata : assetData p
      = [{ name := "Indian Stocks", purchase := orZero p.indianStocksTotal, current := a },
         { name := "US Stocks", purchase := orZero p.usStocksTotal, current := b },
         { name := "Crypto", purchase := orZero p.cryptoTotal, current := c }] := by
    simp [assetData, orZeroOfNumber, ha, hb, hc, orZero_eq]
  have hdisp : displayedItems p
      = (assetData p).filter (fun item => decide (item.current > 0)) := by
    simp [displayedItems, hload, hloading]
  refine ⟨?_, ?_, ?_⟩
  · intro hpos
    have htpos : 0 < totalPortfolioValue p := by
      rw [htot]
      rcases hpos with h | h | h <;> linarith
    have hdiv : allocationDivisor p = totalPortfolioValue p := by
      simp [allocationDivisor, ne_of_gt htpos]
    refine ⟨hdiv, ?_, ?_⟩
    · intro item hitem
      rw [hdisp, List.mem_filter] at hitem
      obtain ⟨hmem, hcur⟩ := hitem
      have hcur' : 0 < item.current := by simpa using hcur
      have hle : item.current ≤ totalPortfolioValue p := by
        rw [htot]
        simp only [hdata, List.mem_cons, List.mem_singleton,
          List.not_mem_nil, or_false] at hmem
        rcases hmem with h | h | h <;> subst h <;> simp only <;> linarith
      refine ⟨?_, ?_, ?_⟩
      · simp [allocationShare, jsDiv, hdiv, ne_of_gt htpos]
      · exact mul_pos (div_pos hcur' htpos) (by norm_num)
      · have hone : item.current / totalPortfolioValue p ≤ 1 :=
          (div_le_one htpos).mpr hle
        linarith
    · rw [hdisp]
      have ht0 : a + b + c ≠ 0 := by
        rw [← htot]
        exact ne_of_gt htpos
      simp only [hdata, htot]
      rcases lt_or_eq_of_le h1 with a1 | a1 <;> rcases lt_or_eq_of_le h2 with b1 | b1 <;>
        rcases lt_or_eq_of_le h3 with c1 | c1
      · simp [List.filter_cons, a1, b1, c1]
        field_simp
        try ring
      · rw [← c1] at ht0 ⊢
        simp [List.filter_cons, a1, b1]
        field_simp
        try ring
      · rw [← b1] at ht0 ⊢
        simp [List.filter_cons, a1, c1]
        field_simp
        try ring
      · rw [← b1, ← c1] at ht0 ⊢
        simp [List.filter_cons, a1]
        field_simp
        try ring
      · rw [← a1] at ht0 ⊢
        simp [List.filter_cons, b1, c1]
        field_simp
        try ring
      · rw [← a1, ← c1] at ht0 ⊢
        simp [List.filter_cons, b1]
        field_simp
        try ring
      · rw [← a1, ← b1] at ht0 ⊢
        simp [List.filter_cons, c1]
        field_simp
        try ring
      · rw [← a1, ← b1, ← c1] at ht0
        simp at ht0
  · intro hne
    by_contra h0
    exact hne (by simp [allocationDivisor, h0])
  · intro hzero
    rw [htot] at hzero
    have a0 : a = 0 := by linarith
    have b0 : b = 0 := by linarith
    have c0 : c = 0 := by linarith
    rw [hdisp, hdata]
    simp [a0, b0, c0, List.filter_cons]

/-- Witness of C29: not loading, with current totals 25000, 0 and 75000, the
shares of the displayed classes sum to 100 and the divisor is the total. -/
theorem allocationShare_sum_witness :
    allocationDivisor sampleChartsProps = totalPortfolioValue sampleChartsProps
      ∧ ((displayedItems sampleChartsProps).map
          (fun item => item.current / totalPortfolioValue sampleChartsProps * 100)).sum
        = 100 :=
  ⟨((allocationShare_sum sampleChartsProps 25000 0 75000 (by simp [sampleChartsProps]) rfl
      rfl rfl rfl (by norm_num) (by norm_num) (by norm_num)).1
      (Or.inl (by norm_num))).1,
   ((allocationShare_sum sampleChartsProps 25000 0 75000 (by simp [sampleChartsProps]) rfl
      rfl rfl rfl (by norm_num) (by norm_num) (by norm_num)).1
      (Or.inl (by norm_num))).2.2⟩

/-! ## Profit and loss of one asset, in doubles -/

theorem double_0_3_ne_zero : double_0_3 ≠ 0 := by
  unfold double_0_3
  norm_num

theorem double_0_1_ne_zero : double_0_1 ≠ 0 := by
  unfold double_0_1
  norm_num

/-- The product 0.3 × 1 is 0.3. -/
theorem doubleMul_0_3_1 : doubleMul double_0_3 1 = double_0_3 := by
  unfold doubleMul double_0_3
  rw [roundDouble_of_bounds (5404319552844595 / 18014398509481984 * 1) (-2)
    5404319552844595 (by norm_num) (by norm_num) (by norm_num)
    (roundHalfEven_of_lt _ _ (by norm_num) (by norm_num))]
  norm_num

/-- The product 0.1 × 1 is 0.1. -/
theorem doubleMul_0_1_1 : doubleMul double_0_1 1 = double_0_1 := by
  unfold doubleMul double_0_1
  rw [roundDouble_of_bounds (3602879701896397 / 36028797018963968 * 1) (-4)
    7205759403792794 (by norm_num) (by norm_num) (by norm_num)
    (roundHalfEven_of_lt _ _ (by norm_num) (by norm_num))]
  norm_num

/-- The difference 0.3 − 0.1 is 0.19999999999999998. -/
theorem doubleSub_0_3_0_1 :
    doubleSub double_0_3 double_0_1 = 7205759403792793 / 36028797018963968 := by
  unfold doubleSub double_0_3 double_0_1
  rw [roundDouble_of_bounds
    (5404319552844595 / 18014398509481984 - 3602879701896397 / 36028797018963968) (-3)
    7205759403792793 (by norm_num) (by norm_num) (by norm_num)
    (roundHalfEven_of_lt _ _ (by norm_num) (by norm_num))]
  norm_num

/-- The quotient 0.19999999999999998 / 0.1 is 1.9999999999999998. -/
theorem doubleDiv_profit_1 :
    doubleDiv (7205759403792793 / 36028797018963968) double_0_1
      = some (9007199254740991 / 4503599627370496) := by
  unfold doubleDiv
  rw [if_neg double_0_1_ne_zero]
  unfold double_0_1
  rw [roundDouble_of_bounds
    (7205759403792793 / 36028797018963968 / (3602879701896397 / 36028797018963968)) 0
    9007199254740991 (by norm_num) (by norm_num) (by norm_num)
    (roundHalfEven_of_lt _ _ (by norm_num) (by norm_num))]
  norm_num

/-- The product 1.9999999999999998 × 100 is 199.99999999999997. -/
theorem doubleMul_percent_1 :
    doubleMul (9007199254740991 / 4503599627370496) 100
      = 7036874417766399 / 35184372088832 := by
  unfold doubleMul
  rw [roundDouble_of_bounds (9007199254740991 / 4503599627370496 * 100) 7
    7036874417766399 (by norm_num) (by norm_num) (by norm_num)
    (roundHalfEven_of_lt _ _ (by norm_num) (by norm_num))]
  norm_num

/-- The product 0.3 × 3 is 0.8999999999999999: a tie, rounded to even. -/
theorem doubleMul_0_3_3 :
    doubleMul double_0_3 3 = 2026619832316723 / 2251799813685248 := by
  unfold doubleMul double_0_3
  rw [roundDouble_of_bounds (5404319552844595 / 18014398509481984 * 3) (-1)
    8106479329266892 (by norm_num) (by norm_num) (by norm_num)
    ((roundHalfEven_of_tie _ 8106479329266892 (by norm_num)).trans (by decide))]
  norm_num

/-- The product 0.1 × 3 is 0.30000000000000004: a tie, rounded to even. -/
theorem doubleMul_0_1_3 :
    doubleMul double_0_1 3 = 1351079888211149 / 4503599627370496 := by
  unfold doubleMul double_0_1
  rw [roundDouble_of_bounds (3602879701896397 / 36028797018963968 * 3) (-2)
    5404319552844596 (by norm_num) (by norm_num) (by norm_num)
    ((roundHalfEven_of_tie _ 5404319552844595 (by norm_num)).trans (by decide))]
  norm_num

/-- The difference 0.8999999999999999 − 0.30000000000000004 is
0.5999999999999999. -/
theorem doubleSub_profit_3 :
    doubleSub (2026619832316723 / 2251799813685248) (1351079888211149 / 4503599627370496)
      = 2702159776422297 / 4503599627370496 := by
  unfold doubleSub
  rw [roundDouble_of_bounds
    (2026619832316723 / 2251799813685248 - 1351079888211149 / 4503599627370496) (-1)
    5404319552844594 (by norm_num) (by norm_num) (by norm_num)
    (roundHalfEven_of_lt _ _ (by norm_num) (by norm_num))]
  norm_num

/-- The quotient 0.5999999999999999 / 0.30000000000000004 is
1.9999999999999993. -/
theorem doubleDiv_profit_3 :
    doubleDiv (2702159776422297 / 4503599627370496) (1351079888211149 / 4503599627370496)
      = some (9007199254740989 / 4503599627370496) := by
  unfold doubleDiv
  rw [if_neg (by norm_num)]
  rw [roundDouble_of_bounds
    (2702159776422297 / 4503599627370496 / (1351079888211149 / 4503599627370496)) 0
    9007199254740989 (by norm_num) (by norm_num) (by norm_num)
    (roundHalfEven_of_lt _ _ (by norm_num) (by norm_num))]
  norm_num

/-- The product 1.9999999999999993 × 100 is 199.99999999999994. -/
theorem doubleMul_percent_3 :
    doubleMul (9007199254740989 / 4503599627370496) 100
      = 3518437208883199 / 17592186044416 := by
  unfold doubleMul
  rw [roundDouble_of_bounds (9007199254740989 / 4503599627370496 * 100) 7
    7036874417766398 (by norm_num) (by norm_num) (by norm_num)
    (roundHalfEven_of_lt _ _ (by norm_num) (by norm_num))]
  norm_num

/-! ## Profit and loss of one asset -/

/-- C30 does not hold as stated. The numbers of the code are doubles: for an
asset bought at 0.1 and the live price 0.3, `calculateProfitLoss` returns the
percent 199.99999999999997 for the quantity 1 and 199.99999999999994 for the
quantity 3, so the percent depends on the quantity, and neither is
(0.3 − 0.1) / 0.1 × 100 evaluated once, which no quantity enters. -/
theorem calculateProfitLossDouble_percent_depends_on_quantity :
    0 < (dimeAsset 1).purchase_price
      ∧ (dimeAsset 3).purchase_price = (dimeAsset 1).purchase_price
      ∧ (0 : ℚ) < (dimeAsset 1).quantity ∧ (0 : ℚ) < (dimeAsset 3).quantity
      ∧ double_0_3 ≠ 0
      ∧ (calculateProfitLossDouble (some double_0_3) (some (dimeAsset 1))).map
          (fun r => r.percent)
        = some (some (7036874417766399 / 35184372088832))
      ∧ (calculateProfitLossDouble (some double_0_3) (some (dimeAsset 3))).map
          (fun r => r.percent)
        = some (some (3518437208883199 / 17592186044416))
      ∧ (calculateProfitLossDouble (some double_0_3) (some (dimeAsset 3))).map
          (fun r => r.percent)
        ≠ (calculateProfitLossDouble (some double_0_3) (some (dimeAsset 1))).map
          (fun r => r.percent) := by
  have h1 : (calculateProfitLossDouble (some double_0_3) (some (dimeAsset 1))).map
        (fun r => r.percent)
      = some (some (7036874417766399 / 35184372088832)) := by
    simp only [calculateProfitLossDouble, dimeAsset, if_neg double_0_3_ne_zero,
      doubleMul_0_3_1, doubleMul_0_1_1, doubleSub_0_3_0_1, doubleDiv_profit_1,
      Option.map_some', doubleMul_percent_1]
  have h3 : (calculateProfitLossDouble (some double_0_3) (some (dimeAsset 3))).map
        (fun r => r.percent)
      = some (some (3518437208883199 / 17592186044416)) := by
    simp only [calculateProfitLossDouble, dimeAsset, if_neg double_0_3_ne_zero,
      doubleMul_0_3_3, doubleMul_0_1_3, doubleSub_profit_3, doubleDiv_profit_3,
      Option.map_some', doubleMul_percent_3]
  refine ⟨?_, rfl, ?_, ?_, double_0_3_ne_zero, h1, h3, ?_⟩
  · simp only [dimeAsset, double_0_1]
    norm_num
  · simp only [dimeAsset]
    norm_num
  · simp only [dimeAsset]
    norm_num
  · rw [h1, h3]
    norm_num

/-- C30, amended: with the numbers taken as exact rationals, for an asset with
purchase price and quantity greater than 0 and a live price `L` other than 0,
`calculateProfitLoss` returns the value
(L − purchase_price) × quantity and the percent
(L − purchase_price) / purchase_price × 100; the percent is the same for every
positive quantity, has the sign of the value, and is the percent change of the
summary box for purchase value purchase_price × quantity and current value
L × quantity; with no live price, or the live price 0, the result is null. -/
theorem calculateProfitLoss_spec (asset : Asset) (L : ℚ)
    (hp : 0 < asset.purchase_price) (hq : 0 < asset.quantity) (hL : L ≠ 0) :
    calculateProfitLoss (some L) (some asset)
        = some
          { value := (L - asset.purchase_price) * asset.quantity
            percent := some ((L - asset.purchase_price) / asset.purchase_price * 100)
            currentValue := L * asset.quantity }
      ∧ (∀ q' : ℚ, 0 < q' →
          (calculateProfitLoss (some L) (some { asset with quantity := q' })).map
              (fun r => r.percent)
            = (calculateProfitLoss (some L) (some asset)).map (fun r => r.percent))
      ∧ (0 < (L - asset.purchase_price) * asset.quantity
          ↔ 0 < (L - asset.purchase_price) / asset.purchase_price * 100)
      ∧ ((L - asset.purchase_price) * asset.quantity < 0
          ↔ (L - asset.purchase_price) / asset.purchase_price * 100 < 0)
      ∧ ((L - asset.purchase_price) * asset.quantity = 0
          ↔ (L - asset.purchase_price) / asset.purchase_price * 100 = 0)
      ∧ percentChange (asset.purchase_price * asset.quantity) (L * asset.quantity)
        = some ((L - asset.purchase_price) / asset.purchase_price * 100)
      ∧ calculateProfitLoss none (some asset) = none
      ∧ calculateProfitLoss (some 0) (some asset) = none := by
  have hpne : asset.purchase_price ≠ 0 := ne_of_gt hp
  have hqne : asset.quantity ≠ 0 := ne_of_gt hq
  have hcalc : ∀ q : ℚ, 0 < q →
      calculateProfitLoss (some L) (some { asset with quantity := q })
        = some
          { value := (L - asset.purchase_price) * q
            percent := some ((L - asset.purchase_price) / asset.purchase_price * 100)
            currentValue := L * q } := by
    intro q hq0
    have hq1 : q ≠ 0 := ne_of_gt hq0
    simp only [calculateProfitLoss, hL, if_false, jsDiv, mul_eq_zero, hpne, hq1, or_self,
      Option.map_some', Option.some.injEq, ProfitLoss.mk.injEq, and_true]
    refine ⟨by ring, ?_⟩
    field_simp
    ring
  have hself := hcalc asset.quantity hq
  refine ⟨hself, ?_, ?_, ?_, ?_, ?_, rfl, ?_⟩
  · intro q' hq'
    rw [hcalc q' hq']
    have hself' : calculateProfitLoss (some L) (some asset)
        = some
          { value := (L - asset.purchase_price) * asset.quantity
            percent := some ((L - asset.purchase_price) / asset.purchase_price * 100)
            currentValue := L * asset.quantity } := hself
    rw [hself']
    rfl
  · constructor
    · intro h
      have hd : 0 < L - asset.purchase_price := by
        by_contra hc
        have hle : L - asset.purchase_price ≤ 0 := not_lt.mp hc
        have := mul_nonpos_of_nonpos_of_nonneg hle (le_of_lt hq)
        linarith
      exact mul_pos (div_pos hd hp) (by norm_num)
    · intro h
      have hd : 0 < L - asset.purchase_price := by
        by_contra hc
        have hle : L - asset.purchase_price ≤ 0 := not_lt.mp hc
        have := div_nonpos_of_nonpos_of_nonneg hle (le_of_lt hp)
        linarith
      exact mul_pos hd hq
  · constructor
    · intro h
      have hd : L - asset.purchase_price < 0 := by
        by_contra hc
        have hge : 0 ≤ L - asset.purchase_price := not_lt.mp hc
        have := mul_nonneg hge (le_of_lt hq)
        linarith
      have := div_neg_of_neg_of_pos hd hp
      linarith
    · intro h
      have hd : L - asset.purchase_price < 0 := by
        by_contra hc
        have hge : 0 ≤ L - asset.purchase_price := not_lt.mp hc
        have := div_nonneg hge (le_of_lt hp)
        linarith
      exact mul_neg_of_neg_of_pos hd hq
  · constructor
    · intro h
      have hd : L - asset.purchase_price = 0 := by
        rcases mul_eq_zero.mp h with h' | h'
        · exact h'
        · exact absurd h' hqne
      simp [hd]
    · intro h
      have hd : L - asset.purchase_price = 0 := by
        rcases mul_eq_zero.mp h with h' | h'
        · rcases div_eq_zero_iff.mp h' with h'' | h''
          · exact h''
          · exact absurd h'' hpne
        · norm_num at h'
      simp [hd]
  · have hpv : 0 < asset.purchase_price * asset.quantity := mul_pos hp hq
    simp only [percentChange, gt_iff_lt, hpv, if_true, jsDiv, ne_of_gt hpv, if_false,
      Option.map_some', Option.some.injEq]
    field_simp
    ring
  · simp [calculateProfitLoss]

/-- Witness of C30: 0.05 BTC bought at 2500000 and priced at 2700000 gives the
value 10000 and the percent 8. -/
theorem calculateProfitLoss_spec_witness :
    calculateProfitLoss (some 2700000) (some bitcoinAsset)
      = some { value := 10000, percent := some 8, currentValue := 135000 } :=
  (calculateProfitLoss_spec bitcoinAsset 2700000 (by simp [bitcoinAsset])
    (by simp [bitcoinAsset]) (by norm_num)).1.trans
    (by simp [bitcoinAsset]; norm_num)

end PortfolioAnalyser
